import Mathlib

/-!
# Bynd Homes API: booking lifecycle and availability

A shallow embedding of `src/models/Booking.js`, `src/controllers/bookingController.js`,
the `PATCH /:id` handler of `src/routes/bookings.js` and the booking mock of
`src/services/guestyService.js`.

Modelling conventions.

* A `Date` is its millisecond timestamp (`Int`); an `ObjectId` is a `Nat`.
* The bookings collection is a `List Booking` in insertion order.  MongoDB keeps `_id`
  unique: inserting a document whose `_id` is already present is rejected.
* An `async` handler is run to completion (no interleaving): it maps the collection
  before the call to an `Outcome`, the HTTP response, the collection afterwards and the
  calls made to the collaborating services, in order.
* Replies of collaborators (Stripe, Guesty, the notification store, the clock) are inputs.
* Documents referenced by a booking exist, so `populate` never yields `null`, and the
  storage layer fails only through schema validation or the unique `_id` index.
* Prices and amounts are IEEE-754 doubles, kept exactly (`Binary64`, `JsNumber`); a stored
  `pricePerNight` is a finite double.
-/

namespace ByndHomes

/-! ## Data model (`src/models/Booking.js`) -/

/-- Values of the `status` path: `enum: ['pending', 'confirmed', 'cancelled', 'completed']`. -/
inductive Status
  | pending
  | confirmed
  | cancelled
  | completed
deriving DecidableEq

/-- Values of the `paymentStatus` path: `enum: ['pending', 'paid', 'failed', 'refunded']`. -/
inductive PaymentStatus
  | pending
  | paid
  | failed
  | refunded
deriving DecidableEq

/-! ## JavaScript Numbers for prices and amounts -/

/-- A finite IEEE-754 double in canonical form: its value is `mantissa * 2 ^ exponent` with
`2^52 <= |mantissa| < 2^53` and `-1074 <= exponent <= 971`, or `|mantissa| < 2^52` and
`exponent = -1074` (subnormal numbers and zero). -/
structure Binary64 where
  mantissa : Int
  exponent : Int
deriving DecidableEq

/-- A JavaScript Number that a product of a finite price and a whole number can be. -/
inductive JsNumber
  | finite (value : Binary64)
  | posInfinity
  | negInfinity
deriving DecidableEq

/-- The number of binary digits of `a`, for `a < 2 ^ fuel`. -/
def bitLength : Nat → Nat → Nat
  | 0, _ => 0
  | fuel + 1, a => if a = 0 then 0 else bitLength fuel (a / 2) + 1

/-- The double nearest to the exact value `x * 2 ^ e` (for `e >= -1074`), ties to the even
significand, overflowing to an infinity as IEEE-754 arithmetic does. -/
def roundToBinary64 (x : Int) (e : Int) : JsNumber :=
  if x = 0 then JsNumber.finite ⟨0, -1074⟩
  else
    let a := x.natAbs
    let len := bitLength 256 a
    let scaled : Nat × Int :=
      if 53 < len then
        let shift := len - 53
        let q := a / 2 ^ shift
        let r := a % 2 ^ shift
        let half := 2 ^ (shift - 1)
        let q1 := if r < half then q else if half < r then q + 1
          else if q % 2 = 0 then q else q + 1
        if q1 = 2 ^ 53 then (2 ^ 52, e + shift + 1) else (q1, e + shift)
      else
        let s := min (53 - len) (e + 1074).toNat
        (a * 2 ^ s, e - s)
    if 971 < scaled.2 then
      (if x < 0 then JsNumber.negInfinity else JsNumber.posInfinity)
    else
      JsNumber.finite ⟨if x < 0 then -(scaled.1 : Int) else (scaled.1 : Int), scaled.2⟩

/-- The JavaScript product `a * n` of a finite double and a whole number below `2^53` in
size: the exact product, rounded to the nearest double. -/
def jsTimes (a : Binary64) (n : Int) : JsNumber :=
  roundToBinary64 (a.mantissa * n) a.exponent

/-- The double holding the whole number `n` (exact for `|n| <= 2^53`). -/
def JsNumber.ofInt (n : Int) : JsNumber :=
  roundToBinary64 n 0

/-- The finite double holding the whole number `n`, for `|n| <= 2^53`. -/
def Binary64.ofInt (n : Int) : Binary64 :=
  match JsNumber.ofInt n with
  | JsNumber.finite v => v
  | _ => ⟨0, -1074⟩

instance (n : Nat) : OfNat Binary64 n := ⟨Binary64.ofInt n⟩

instance (n : Nat) : OfNat JsNumber n := ⟨JsNumber.ofInt n⟩

/-- A document of `bookingSchema`. -/
structure Booking where
  _id : Nat
  property : Nat
  user : Nat
  checkIn : Int
  checkOut : Int
  guests : Int
  totalAmount : JsNumber
  stripePaymentIntentId : Option String
  status : Status
  paymentStatus : PaymentStatus
deriving DecidableEq

/-- The fields of a `Property` document that the booking controller reads; `pricePerNight` is
the finite double that `parseFloat` has stored. -/
structure Property where
  _id : Nat
  isActive : Bool
  maxGuests : Int
  pricePerNight : Binary64
deriving DecidableEq

/-- The filter built by `checkAvailability`:
`{ property, status: {$in: ['confirmed','pending']}, $or: [{checkIn: {$lt: checkOut},
checkOut: {$gt: checkIn}}] }`, plus `_id: {$ne: excludeBookingId}` when that is given. -/
def conflictQuery (propertyId : Nat) (checkIn checkOut : Int) (excludeBookingId : Option Nat)
    (b : Booking) : Bool :=
  decide (b.property = propertyId) &&
  (decide (b.status = Status.confirmed) || decide (b.status = Status.pending)) &&
  (decide (b.checkIn < checkOut) && decide (b.checkOut > checkIn)) &&
  (match excludeBookingId with
   | none => true
   | some x => decide (b._id ≠ x))

/-- The static `bookingSchema.statics.checkAvailability`: `findOne(query)` and `!conflictingBooking`. -/
def Booking.checkAvailability (store : List Booking) (propertyId : Nat) (checkIn checkOut : Int)
    (excludeBookingId : Option Nat) : Bool :=
  (store.find? (conflictQuery propertyId checkIn checkOut excludeBookingId)).isNone

/-- The query `Booking.findById`. -/
def Booking.findById (store : List Booking) (id : Nat) : Option Booking :=
  store.find? (fun b => decide (b._id = id))

/-- The query `Property.findById`. -/
def Property.findById (properties : List Property) (id : Nat) : Option Property :=
  properties.find? (fun p => decide (p._id = id))

/-- The first `save()` of a new document: an insert, rejected (`none`) on a duplicate `_id`. -/
def Booking.insert (store : List Booking) (b : Booking) : Option (List Booking) :=
  if (Booking.findById store b._id).isSome then none else some (store ++ [b])

/-- A `save()` of a loaded document or `findByIdAndUpdate`: the modified paths of the
document with that `_id` are written. -/
def Booking.updateById (store : List Booking) (id : Nat) (f : Booking → Booking) : List Booking :=
  store.map (fun b => if b._id = id then f b else b)

/-- The query `Booking.findByIdAndDelete`: removes the document with that `_id`. -/
def Booking.findByIdAndDelete (store : List Booking) (id : Nat) : List Booking :=
  store.eraseP (fun b => decide (b._id = id))

/-- The collection without any booking of the given id. -/
def Booking.without (store : List Booking) (id : Nat) : List Booking :=
  store.filter (fun b => decide (b._id ≠ id))

/-- A booking counts as active when its status is `pending` or `confirmed`. -/
def Booking.active (b : Booking) : Prop :=
  b.status = Status.pending ∨ b.status = Status.confirmed

instance (b : Booking) : Decidable b.active := by
  unfold Booking.active; exact inferInstance

/-- The half-open overlap test between two stored bookings. -/
def Booking.overlaps (b1 b2 : Booking) : Prop :=
  b1.checkIn < b2.checkOut ∧ b1.checkOut > b2.checkIn

instance (b1 b2 : Booking) : Decidable (b1.overlaps b2) := by
  unfold Booking.overlaps; exact inferInstance

/-! ## Responses and collaborator calls -/

/-- The part of an HTTP response the theorems below speak about: status code, `success`, `message`. -/
structure Response where
  status : Nat
  success : Bool
  message : String
deriving DecidableEq

/-- Calls to collaborating services, as they leave a handler. -/
inductive Call
  | createPaymentIntent (amount : JsNumber) (bookingId : Nat)
  | retrievePaymentIntent (paymentIntentId : Option String)
  | guestyCreateBooking (bookingId : Nat)
  | createBookingConfirmation (bookingId : Nat)
  | notificationSaved (bookingId : Nat)
  | sendEmailNotification (bookingId : Nat)
deriving DecidableEq

/-- What a handler run leaves behind. -/
structure Outcome where
  res : Response
  bookings : List Booking
  calls : List Call
deriving DecidableEq

/-- The whole-unit difference `moment(a).diff(moment(b), unit)` for the units second, minute
and hour: the millisecond difference divided by the unit and truncated toward zero. -/
def momentDiff (a b unitMs : Int) : Int :=
  Int.tdiv (a - b) unitMs

def msPerDay : Int := 24 * 60 * 60 * 1000

def msPerHour : Int := 60 * 60 * 1000

/-- The difference `moment(a).diff(moment(b), 'days')`: for days moment first takes off
`zoneDelta`, the change of the local UTC offset between the two instants, computing
`(this - that - zoneDelta) / 864e5` with `zoneDelta = (that.utcOffset() - this.utcOffset()) * 6e4`,
and truncates toward zero; `utcOffset t` is the server's UTC offset in minutes at instant `t`. -/
def momentDiffDays (utcOffset : Int → Int) (a b : Int) : Int :=
  let zoneDelta := (utcOffset b - utcOffset a) * 60000
  Int.tdiv (a - b - zoneDelta) msPerDay

/-! ## `createBooking` -/

/-- The request body of `POST /`.  `checkIn` and `checkOut` are the instants `new Date(..)`
reads from the two date strings; `checkInMoment` and `checkOutMoment` are the instants
`moment(..)` reads from them, which are the same unless the string has no time part:
`new Date` reads a bare date as midnight UTC, `moment` as midnight local time. -/
structure CreateRequest where
  propertyId : Nat
  checkIn : Int
  checkOut : Int
  checkInMoment : Int
  checkOutMoment : Int
  guests : Int
deriving DecidableEq

/-- The reply of `stripeService.createPaymentIntent`. -/
inductive PaymentResult
  | success (paymentIntentId : String) (clientSecret : String)
  | failure (error : String)
deriving DecidableEq

/-- What `createBooking` reads from outside the bookings collection. -/
structure CreateEnv where
  /-- The value of `new Date().setHours(0, 0, 0, 0)`, the start of the current day. -/
  today : Int
  properties : List Property
  /-- The `_id` that `new Booking(..)` generates. -/
  newId : Nat
  paymentResult : PaymentResult
  /-- The UTC offset of the server's time zone, in minutes, at a given instant. -/
  utcOffset : Int → Int

/-- The handler `exports.createBooking`. -/
def createBooking (env : CreateEnv) (store : List Booking) (userId : Nat) (req : CreateRequest) :
    Outcome :=
  if req.checkIn ≥ req.checkOut then
    ⟨⟨400, false, "Check-out date must be after check-in date"⟩, store, []⟩
  else if req.checkIn < env.today then
    ⟨⟨400, false, "Check-in date cannot be in the past"⟩, store, []⟩
  else
    match Property.findById env.properties req.propertyId with
    | none => ⟨⟨404, false, "Property not found or not available"⟩, store, []⟩
    | some property =>
      if property.isActive = false then
        ⟨⟨404, false, "Property not found or not available"⟩, store, []⟩
      else if req.guests > property.maxGuests then
        ⟨⟨400, false, "Maximum guests allowed: " ++ toString property.maxGuests⟩, store, []⟩
      else if Booking.checkAvailability store req.propertyId req.checkIn req.checkOut none = false then
        ⟨⟨400, false, "Property not available for selected dates"⟩, store, []⟩
      else
        let nights := momentDiffDays env.utcOffset req.checkOutMoment req.checkInMoment
        let totalAmount := jsTimes property.pricePerNight nights
        let booking : Booking :=
          { _id := env.newId, property := req.propertyId, user := userId,
            checkIn := req.checkIn, checkOut := req.checkOut, guests := req.guests,
            totalAmount := totalAmount, stripePaymentIntentId := none,
            status := Status.pending, paymentStatus := PaymentStatus.pending }
        -- `booking.save()` validates `guests: { min: 1 }`; a rejected save lands in `catch`
        if req.guests < 1 then
          ⟨⟨500, false, "Server error while creating booking"⟩, store, []⟩
        else
          match Booking.insert store booking with
          -- a duplicate `_id` makes `booking.save()` throw, which lands in `catch` as well
          | none => ⟨⟨500, false, "Server error while creating booking"⟩, store, []⟩
          | some store1 =>
            let calls := [Call.createPaymentIntent totalAmount booking._id]
            match env.paymentResult with
            | PaymentResult.failure _ =>
              ⟨⟨500, false, "Failed to create payment intent"⟩,
                Booking.findByIdAndDelete store1 booking._id, calls⟩
            | PaymentResult.success paymentIntentId _ =>
              ⟨⟨201, true, "Booking created successfully"⟩,
                Booking.updateById store1 booking._id
                  (fun b => { b with stripePaymentIntentId := some paymentIntentId }),
                calls⟩

/-! ## `confirmBooking` -/

/-- The reply of `stripeService.retrievePaymentIntent`; `status` is `paymentIntent.status`. -/
inductive RetrieveResult
  | success (status : String)
  | failure (error : String)
deriving DecidableEq

/-- What `confirmBooking` reads from outside the bookings collection. -/
structure ConfirmEnv where
  /-- Whether `process.env.NODE_ENV === 'development'`. -/
  development : Bool
  /-- Whether `guestyService.createBooking` replies `success: true`. -/
  guestySuccess : Bool
  /-- The reply to the `retrievePaymentIntent` call of the development block. -/
  retrieveDev : RetrieveResult
  /-- The reply to the `retrievePaymentIntent` call of the strict block. -/
  retrieveStrict : RetrieveResult
  /-- Whether `notification.save()` inside `createBookingConfirmation` throws. -/
  notificationFails : Bool
deriving DecidableEq

/-- The method `NotificationService.createBookingConfirmation`: saves the notification, then
sends the e-mail itself; `false` stands for the rethrown storage error. -/
def NotificationService.createBookingConfirmation (fails : Bool) (booking : Booking) :
    Bool × List Call :=
  if fails then (false, [])
  else (true, [Call.notificationSaved booking._id, Call.sendEmailNotification booking._id])

/-- The `try { createBookingConfirmation; sendEmailNotification } catch { log }` block that
follows each confirming save. -/
def notifyConfirmed (fails : Bool) (booking : Booking) : List Call :=
  let r := NotificationService.createBookingConfirmation fails booking
  Call.createBookingConfirmation booking._id ::
    (if r.1 then r.2 ++ [Call.sendEmailNotification booking._id] else r.2)

/-- The assignments `booking.status = 'confirmed'; booking.paymentStatus = 'paid'`. -/
def Booking.markConfirmed (b : Booking) : Booking :=
  { b with status := Status.confirmed, paymentStatus := PaymentStatus.paid }

/-- The development block's `allowedStatuses`. -/
def allowedStatuses : List String := ["succeeded", "processing", "requires_capture"]

/-- Lines 270-323 of `confirmBooking`: the strict check, entered with the calls made so far. -/
def confirmStrict (env : ConfirmEnv) (store : List Booking) (bookingId : Nat) (booking : Booking)
    (calls : List Call) : Outcome :=
  let calls1 := calls ++ [Call.retrievePaymentIntent booking.stripePaymentIntentId]
  match env.retrieveStrict with
  | RetrieveResult.failure _ =>
    ⟨⟨400, false, "Failed to retrieve payment information"⟩, store, calls1⟩
  | RetrieveResult.success status =>
    if status ≠ "succeeded" then
      ⟨⟨400, false, "Payment not completed. Current status: " ++ status⟩, store, calls1⟩
    else if Booking.checkAvailability store booking.property booking.checkIn booking.checkOut
        (some bookingId) = false then
      ⟨⟨400, false,
        "Property is no longer available for the selected dates. Payment will be refunded."⟩,
        store, calls1⟩
    else
      ⟨⟨200, true, "Booking confirmed successfully"⟩,
        Booking.updateById store booking._id Booking.markConfirmed,
        calls1 ++ notifyConfirmed env.notificationFails booking.markConfirmed⟩

/-- The handler `exports.confirmBooking`, called by `actor` for `bookingId`. -/
def confirmBooking (env : ConfirmEnv) (store : List Booking) (actor bookingId : Nat) : Outcome :=
  match Booking.findById store bookingId with
  | none => ⟨⟨404, false, "Booking not found"⟩, store, []⟩
  | some booking =>
    if booking.user ≠ actor then
      ⟨⟨403, false, "Access denied. You can only confirm your own bookings."⟩, store, []⟩
    else if booking.status = Status.confirmed then
      ⟨⟨400, false, "Booking is already confirmed"⟩, store, []⟩
    -- `paymentStatus === 'succeeded'` cannot hold: the schema enum has no such value
    else if booking.paymentStatus = PaymentStatus.paid then
      if Booking.checkAvailability store booking.property booking.checkIn booking.checkOut
          (some bookingId) = false then
        ⟨⟨400, false, "Property is no longer available for the selected dates."⟩, store, []⟩
      else
        ⟨⟨200, true, "Booking confirmed successfully"⟩,
          Booking.updateById store booking._id Booking.markConfirmed,
          notifyConfirmed env.notificationFails booking.markConfirmed⟩
    else
      -- `guestyBookingId` is not a path of `bookingSchema`: the save after a successful
      -- sync writes nothing
      let calls0 := [Call.guestyCreateBooking booking._id]
      if env.development then
        let calls1 := calls0 ++ [Call.retrievePaymentIntent booking.stripePaymentIntentId]
        match env.retrieveDev with
        | RetrieveResult.success status =>
          if allowedStatuses.contains status then
            if Booking.checkAvailability store booking.property booking.checkIn booking.checkOut
                (some bookingId) = false then
              ⟨⟨400, false, "Property is no longer available."⟩, store, calls1⟩
            else
              ⟨⟨200, true, "Booking confirmed (development - status: " ++ status ++ ")"⟩,
                Booking.updateById (Booking.updateById store booking._id Booking.markConfirmed)
                  bookingId (fun b => { b with paymentStatus := PaymentStatus.paid }),
                calls1 ++ notifyConfirmed env.notificationFails booking.markConfirmed⟩
          else confirmStrict env store bookingId booking calls1
        | RetrieveResult.failure _ => confirmStrict env store bookingId booking calls1
      else confirmStrict env store bookingId booking calls0

/-! ## `cancelBooking` -/

/-- The handler `exports.cancelBooking`, called by `actor` for `bookingId` at time `now`. -/
def cancelBooking (now : Int) (store : List Booking) (actor bookingId : Nat) : Outcome :=
  match Booking.findById store bookingId with
  | none => ⟨⟨404, false, "Booking not found"⟩, store, []⟩
  | some booking =>
    if booking.user ≠ actor then
      ⟨⟨403, false, "Access denied. You can only cancel your own bookings."⟩, store, []⟩
    else
      let hoursToCheckIn := momentDiff booking.checkIn now msPerHour
      if hoursToCheckIn < 24 ∧ booking.status = Status.confirmed then
        ⟨⟨400, false, "Cancellation not allowed within 24 hours of check-in"⟩, store, []⟩
      else if booking.status = Status.cancelled ∨ booking.status = Status.completed then
        ⟨⟨400, false, "Booking is already " ++
          (if booking.status = Status.cancelled then "cancelled" else "completed")⟩, store, []⟩
      else
        ⟨⟨200, true, "Booking cancelled successfully"⟩,
          Booking.updateById store booking._id (fun b => { b with status := Status.cancelled }),
          []⟩

/-! ## `PATCH /:id` -/

/-- The enum validator of `paymentStatus`, run by `runValidators: true`. -/
def PaymentStatus.ofString (s : String) : Option PaymentStatus :=
  if s = "pending" then some PaymentStatus.pending
  else if s = "paid" then some PaymentStatus.paid
  else if s = "failed" then some PaymentStatus.failed
  else if s = "refunded" then some PaymentStatus.refunded
  else none

/-- The body of `PATCH /:id`; `none` is an absent field. -/
structure PatchBody where
  paymentStatus : Option String
  stripePaymentIntentId : Option String
deriving DecidableEq

/-- JavaScript truthiness of an optional string: present and not empty. -/
def truthy (s : Option String) : Bool :=
  match s with
  | none => false
  | some v => decide (v ≠ "")

/-- The handler `router.patch('/:id', ..)`. -/
def patchBooking (store : List Booking) (id : Nat) (body : PatchBody) : Outcome :=
  if truthy body.paymentStatus = false ∨ truthy body.stripePaymentIntentId = false then
    ⟨⟨400, false, "paymentStatus and stripePaymentIntentId are required"⟩, store, []⟩
  else
    match body.paymentStatus.bind PaymentStatus.ofString with
    | none => ⟨⟨500, false, "Failed to update booking"⟩, store, []⟩
    | some ps =>
      match Booking.findById store id with
      | none => ⟨⟨404, false, "Booking not found"⟩, store, []⟩
      | some _ =>
        ⟨⟨200, true, "Booking updated successfully"⟩,
          Booking.updateById store id
            (fun b => { b with paymentStatus := ps,
                               stripePaymentIntentId := body.stripePaymentIntentId }),
          []⟩

/-! ## Reachable collections -/

/-- Collections reachable from the empty one by runs of the four mutating handlers, one
after the other. -/
inductive Reachable : List Booking → Prop
  | empty : Reachable []
  | create (env : CreateEnv) (userId : Nat) (req : CreateRequest) {s : List Booking} :
      Reachable s → Reachable (createBooking env s userId req).bookings
  | confirm (env : ConfirmEnv) (actor bookingId : Nat) {s : List Booking} :
      Reachable s → Reachable (confirmBooking env s actor bookingId).bookings
  | cancel (now : Int) (actor bookingId : Nat) {s : List Booking} :
      Reachable s → Reachable (cancelBooking now s actor bookingId).bookings
  | patch (id : Nat) (body : PatchBody) {s : List Booking} :
      Reachable s → Reachable (patchBooking s id body).bookings

/-- The non-overlap invariant of the spec: two distinct active bookings of one property do
not overlap. -/
def NonOverlap (s : List Booking) : Prop :=
  ∀ b1 ∈ s, ∀ b2 ∈ s, b1 ≠ b2 → b1.property = b2.property → b1.active → b2.active →
    ¬ b1.overlaps b2

/-- No two documents of the collection share an `_id`. -/
def UniqueIds (s : List Booking) : Prop :=
  ∀ b1 ∈ s, ∀ b2 ∈ s, b1._id = b2._id → b1 = b2

/-- An update that leaves `_id`, `property` and the interval of every document alone. -/
def KeepsSlot (f : Booking → Booking) : Prop :=
  ∀ x, (f x)._id = x._id ∧ (f x).property = x.property ∧ (f x).checkIn = x.checkIn ∧
    (f x).checkOut = x.checkOut

/-! ## Sample data -/

/-- Midnight UTC of day `d` of June 2025, in milliseconds since the epoch. -/
def june2025 (d : Int) : Int := 1748736000000 + (d - 1) * 86400000

/-- A property at 100 per night for up to four guests. -/
def sampleProperty : Property :=
  { _id := 10, isActive := true, maxGuests := 4, pricePerNight := 100 }

/-- A confirmed and paid booking of the sample property for `[2025-06-04, 2025-06-10)`. -/
def sampleConfirmed : Booking :=
  { _id := 1, property := 10, user := 7, checkIn := june2025 4, checkOut := june2025 10,
    guests := 2, totalAmount := 600, stripePaymentIntentId := some "pi_1",
    status := Status.confirmed, paymentStatus := PaymentStatus.paid }

/-- A creation environment on 2025-05-20, on a server in UTC, in which Stripe accepts the
payment intent. -/
def sampleCreateEnv (newId : Nat) : CreateEnv :=
  { today := 1747699200000, properties := [sampleProperty], newId := newId,
    paymentResult := PaymentResult.success "pi_new" "secret", utcOffset := fun _ => 0 }

/-- A creation environment on 2025-05-20 in which Stripe refuses the payment intent. -/
def sampleCreateEnvFailing (newId : Nat) : CreateEnv :=
  { today := 1747699200000, properties := [sampleProperty], newId := newId,
    paymentResult := PaymentResult.failure "card_declined", utcOffset := fun _ => 0 }

/-- A request for the sample property from day `a` to day `b` of June 2025, two guests. -/
def sampleRequest (a b : Int) : CreateRequest :=
  { propertyId := 10, checkIn := june2025 a, checkOut := june2025 b,
    checkInMoment := june2025 a, checkOutMoment := june2025 b, guests := 2 }

/-- Two adjacent stays booked one after the other, starting from the empty collection. -/
def sampleTwoStays : List Booking :=
  (createBooking (sampleCreateEnv 2)
    (createBooking (sampleCreateEnv 1) [] 7 (sampleRequest 4 10)).bookings 8
    (sampleRequest 1 4)).bookings

/-- Whether a call is a `stripeService.retrievePaymentIntent`. -/
def Call.isRetrieve : Call → Bool
  | Call.retrievePaymentIntent _ => true
  | _ => false

/-- Collections reachable from the empty one when no `PATCH /:id` writes a `paymentStatus`
other than `paid` onto a confirmed booking. -/
inductive ReachableGuarded : List Booking → Prop
  | empty : ReachableGuarded []
  | create (env : CreateEnv) (userId : Nat) (req : CreateRequest) {s : List Booking} :
      ReachableGuarded s → ReachableGuarded (createBooking env s userId req).bookings
  | confirm (env : ConfirmEnv) (actor bookingId : Nat) {s : List Booking} :
      ReachableGuarded s → ReachableGuarded (confirmBooking env s actor bookingId).bookings
  | cancel (now : Int) (actor bookingId : Nat) {s : List Booking} :
      ReachableGuarded s → ReachableGuarded (cancelBooking now s actor bookingId).bookings
  | patch (id : Nat) (body : PatchBody) {s : List Booking} :
      (∀ b ∈ s, b._id = id → b.status = Status.confirmed → body.paymentStatus = some "paid") →
      ReachableGuarded s → ReachableGuarded (patchBooking s id body).bookings

/-- A production environment in which Stripe cannot be reached at all. -/
def sampleStrictEnvNoStripe : ConfirmEnv :=
  { development := false, guestySuccess := true,
    retrieveDev := RetrieveResult.failure "unreachable",
    retrieveStrict := RetrieveResult.failure "unreachable", notificationFails := false }

/-- A production environment in which Stripe reports the payment intent as succeeded. -/
def sampleStrictEnvSucceeded : ConfirmEnv :=
  { development := false, guestySuccess := true,
    retrieveDev := RetrieveResult.success "succeeded",
    retrieveStrict := RetrieveResult.success "succeeded", notificationFails := false }

/-- One stay created by user 7, then marked paid through `PATCH /:id`. -/
def samplePatchedPaid : List Booking :=
  (patchBooking (createBooking (sampleCreateEnv 1) [] 7 (sampleRequest 4 10)).bookings 1
    { paymentStatus := some "paid", stripePaymentIntentId := some "pi_new" }).bookings

/-- One stay created and confirmed under the strict policy, then patched to `refunded`. -/
def sampleRefunded : List Booking :=
  (patchBooking
    (confirmBooking sampleStrictEnvSucceeded
      (createBooking (sampleCreateEnv 1) [] 7 (sampleRequest 4 10)).bookings 7 1).bookings 1
    { paymentStatus := some "refunded", stripePaymentIntentId := some "pi_new" }).bookings

/-- A pending booking of user 8 for `[2025-06-01, 2025-06-05)` on the sample property. -/
def samplePending : Booking :=
  { _id := 2, property := 10, user := 8, checkIn := june2025 1, checkOut := june2025 5,
    guests := 2, totalAmount := 400, stripePaymentIntentId := some "pi_2",
    status := Status.pending, paymentStatus := PaymentStatus.pending }

/-- A development environment in which Stripe reports the payment intent as succeeded. -/
def sampleDevEnvSucceeded : ConfirmEnv :=
  { development := true, guestySuccess := true,
    retrieveDev := RetrieveResult.success "succeeded",
    retrieveStrict := RetrieveResult.success "succeeded", notificationFails := false }

/-! ## `getBookingById` -/

/-- The handler `exports.getBookingById`, called by `actor` for `id`; it writes nothing. -/
def getBookingById (store : List Booking) (actor id : Nat) : Outcome :=
  match Booking.findById store id with
  | none => ⟨⟨404, false, "Booking not found"⟩, store, []⟩
  | some booking =>
    if booking.user ≠ actor then
      ⟨⟨403, false, "Access denied. You can only view your own bookings."⟩, store, []⟩
    else
      ⟨⟨200, true, ""⟩, store, []⟩

/-! ## The Guesty mock (`src/services/guestyService.js`) -/

/-- The fields of an entry of `mockBookings` that identify the mirrored booking. -/
structure GuestyBooking where
  externalBookingId : Nat
  status : String
deriving DecidableEq

/-- The method `GuestyService.createBooking`: records the booking with `status: 'confirmed'`
and replies `success: true`. -/
def GuestyService.createBooking (mockBookings : List GuestyBooking) (bookingId : Nat) :
    Bool × List GuestyBooking :=
  (true, mockBookings ++ [{ externalBookingId := bookingId, status := "confirmed" }])

/-- The content of `mockBookings` after the calls a handler made. -/
def gatewayAfter (mockBookings : List GuestyBooking) (calls : List Call) : List GuestyBooking :=
  calls.foldl
    (fun m c =>
      match c with
      | Call.guestyCreateBooking id => (GuestyService.createBooking m id).2
      | _ => m)
    mockBookings

/-- One stay created by user 7 and cancelled by that user on 2025-05-20. -/
def sampleCancelled : List Booking :=
  (cancelBooking 1747699200000
    (createBooking (sampleCreateEnv 1) [] 7 (sampleRequest 4 10)).bookings 7 1).bookings

/-- A stay of the sample property from 2025-06-01 to 2025-06-04 asked for on 2025-05-20. -/
def sampleThreeNights : Outcome :=
  createBooking (sampleCreateEnv 1) [] 7 (sampleRequest 1 4)

/-- A property that has been switched off, for up to four guests. -/
def sampleInactiveProperty : Property :=
  { _id := 11, isActive := false, maxGuests := 4, pricePerNight := 100 }

/-- A creation environment on 2025-05-20 that knows the sample and the inactive property. -/
def sampleCreateEnvTwo (newId : Nat) : CreateEnv :=
  { today := 1747699200000, properties := [sampleProperty, sampleInactiveProperty],
    newId := newId, paymentResult := PaymentResult.success "pi_new" "secret",
    utcOffset := fun _ => 0 }

/-- A request of nine guests for the inactive property, 2025-06-01 to 2025-06-04. -/
def sampleRequestInactive : CreateRequest :=
  { propertyId := 11, checkIn := june2025 1, checkOut := june2025 4,
    checkInMoment := june2025 1, checkOutMoment := june2025 4, guests := 9 }

/-- The strict environment with Guesty reporting failure and the notification store down. -/
def sampleEnvCollaboratorsDown : ConfirmEnv :=
  { sampleStrictEnvSucceeded with guestySuccess := false, notificationFails := true }

/-- A production environment in which Stripe reports the payment as not yet made. -/
def sampleStrictEnvUnpaid : ConfirmEnv :=
  { development := false, guestySuccess := true,
    retrieveDev := RetrieveResult.success "requires_payment_method",
    retrieveStrict := RetrieveResult.success "requires_payment_method",
    notificationFails := false }

/-! ## `createBooking` at its `await` points -/

/-- The part of `createBooking` up to and including `await Booking.checkAvailability(..)`:
the checks, read against the collection as it is at that moment, and on success the document
built by `new Booking(..)`. -/
def createBookingValidate (env : CreateEnv) (store : List Booking) (userId : Nat)
    (req : CreateRequest) : Except Response Booking :=
  if req.checkIn ≥ req.checkOut then
    Except.error ⟨400, false, "Check-out date must be after check-in date"⟩
  else if req.checkIn < env.today then
    Except.error ⟨400, false, "Check-in date cannot be in the past"⟩
  else
    match Property.findById env.properties req.propertyId with
    | none => Except.error ⟨404, false, "Property not found or not available"⟩
    | some property =>
      if property.isActive = false then
        Except.error ⟨404, false, "Property not found or not available"⟩
      else if req.guests > property.maxGuests then
        Except.error ⟨400, false, "Maximum guests allowed: " ++ toString property.maxGuests⟩
      else if Booking.checkAvailability store req.propertyId req.checkIn req.checkOut none = false then
        Except.error ⟨400, false, "Property not available for selected dates"⟩
      else
        Except.ok
          { _id := env.newId, property := req.propertyId, user := userId,
            checkIn := req.checkIn, checkOut := req.checkOut, guests := req.guests,
            totalAmount := jsTimes property.pricePerNight
              (momentDiffDays env.utcOffset req.checkOutMoment req.checkInMoment),
            stripePaymentIntentId := none,
            status := Status.pending, paymentStatus := PaymentStatus.pending }

/-- The rest of `createBooking`, from the first `await booking.save()` on, run against the
collection as it is by then.  The index `{ property, checkIn, checkOut, status }` is declared
without `unique`, so the insert is refused on a duplicate `_id` only. -/
def createBookingPersist (env : CreateEnv) (store : List Booking) (booking : Booking) : Outcome :=
  if booking.guests < 1 then
    ⟨⟨500, false, "Server error while creating booking"⟩, store, []⟩
  else
    match Booking.insert store booking with
    | none => ⟨⟨500, false, "Server error while creating booking"⟩, store, []⟩
    | some store1 =>
      let calls := [Call.createPaymentIntent booking.totalAmount booking._id]
      match env.paymentResult with
      | PaymentResult.failure _ =>
        ⟨⟨500, false, "Failed to create payment intent"⟩,
          Booking.findByIdAndDelete store1 booking._id, calls⟩
      | PaymentResult.success paymentIntentId _ =>
        ⟨⟨201, true, "Booking created successfully"⟩,
          Booking.updateById store1 booking._id
            (fun b => { b with stripePaymentIntentId := some paymentIntentId }),
          calls⟩

/-- Two `createBooking` requests whose steps interleave at the `await` points: both run
their checks on the same collection, then both save, the first before the second. -/
def interleavedCreate (envA envB : CreateEnv) (store : List Booking) (userA userB : Nat)
    (reqA reqB : CreateRequest) : Option (Outcome × Outcome) :=
  match createBookingValidate envA store userA reqA,
        createBookingValidate envB store userB reqB with
  | Except.ok bookingA, Except.ok bookingB =>
    let outA := createBookingPersist envA store bookingA
    let outB := createBookingPersist envB outA.bookings bookingB
    some (outA, outB)
  | _, _ => none

/-- An environment in which Stripe reports the payment intent as still processing. -/
def sampleProcessingEnv : ConfirmEnv :=
  { development := false, guestySuccess := true,
    retrieveDev := RetrieveResult.success "processing",
    retrieveStrict := RetrieveResult.success "processing", notificationFails := false }

/-! ## The `nights` virtual and the route behind `auth` -/

/-- The virtual `nights`: `Math.round(Math.abs((checkOut - checkIn) / oneDay))`.  For a
non-negative quotient `Math.round` is the floor of the quotient plus one half, written here
over the integers (timestamps are far below `2^53`, where the division is exact enough). -/
def Booking.nights (b : Booking) : Int :=
  (2 * ((b.checkOut - b.checkIn).natAbs : Int) + msPerDay) / (2 * msPerDay)

/-- The route `router.patch('/:id', ..)` as mounted behind `router.use(auth)`: the request
carries the authenticated `req.user`, which the handler never reads. -/
def patchRoute (_actor : Nat) (store : List Booking) (id : Nat) (body : PatchBody) : Outcome :=
  patchBooking store id body

/-- A request for the sample property from 2025-06-01 00:00 to 2025-06-02 14:24 (1.6 days). -/
def sampleRequestPartialDay : CreateRequest :=
  { propertyId := 10, checkIn := june2025 1, checkOut := june2025 2 + 51840000,
    checkInMoment := june2025 1, checkOutMoment := june2025 2 + 51840000, guests := 2 }

/-- The collection after the partial-day request has been created on 2025-05-20. -/
def samplePartialDay : List Booking :=
  (createBooking (sampleCreateEnv 1) [] 7 sampleRequestPartialDay).bookings

/-- How often a call occurs among the calls a handler made. -/
def callCount (c : Call) (calls : List Call) : Nat :=
  calls.count c

/-- The UTC offset of New York in minutes around the start of daylight saving time on
2025-03-09 at 07:00 UTC. -/
def sampleNewYorkOffset (t : Int) : Int :=
  if t < 1741503600000 then -300 else -240

/-- A creation environment on 2025-03-01 on a server in New York. -/
def sampleCreateEnvNewYork (newId : Nat) : CreateEnv :=
  { today := 1740805200000, properties := [sampleProperty], newId := newId,
    paymentResult := PaymentResult.success "pi_new" "secret", utcOffset := sampleNewYorkOffset }

/-- A request for the sample property from 2025-03-08T05:00:00Z to 2025-03-10T04:00:00Z, local
midnight to local midnight in New York, 47 hours apart. -/
def sampleRequestAcrossDst : CreateRequest :=
  { propertyId := 10, checkIn := 1741410000000, checkOut := 1741579200000,
    checkInMoment := 1741410000000, checkOutMoment := 1741579200000, guests := 2 }

/-- The same stay asked for with bare dates, `2025-03-08` to `2025-03-10`: `new Date` reads
them as midnight UTC, `moment` as midnight in New York. -/
def sampleRequestDateOnly : CreateRequest :=
  { propertyId := 10, checkIn := 1741392000000, checkOut := 1741564800000,
    checkInMoment := 1741410000000, checkOutMoment := 1741579200000, guests := 2 }

/-- The double nearest to 99.99. -/
def samplePriceWithCents : Binary64 :=
  { mantissa := 7036170730324623, exponent := -46 }

/-! ## Helper lemmas on the collection queries -/

theorem conflictQuery_iff (p : Nat) (ci co : Int) (ex : Option Nat) (b : Booking) :
    conflictQuery p ci co ex b = true ↔
      b.property = p ∧ b.active ∧ (b.checkIn < co ∧ b.checkOut > ci) ∧
        (∀ x, ex = some x → b._id ≠ x) := by
  cases ex <;> simp [conflictQuery, Booking.active, and_assoc, or_comm]

theorem checkAvailability_eq_true_iff (store : List Booking) (p : Nat) (ci co : Int)
    (ex : Option Nat) :
    Booking.checkAvailability store p ci co ex = true ↔
      ∀ b ∈ store, conflictQuery p ci co ex b = false := by
  simp [Booking.checkAvailability, List.find?_eq_none]

theorem checkAvailability_eq_false_iff (store : List Booking) (p : Nat) (ci co : Int)
    (ex : Option Nat) :
    Booking.checkAvailability store p ci co ex = false ↔
      ∃ b ∈ store, conflictQuery p ci co ex b = true := by
  rw [← Bool.not_eq_true, checkAvailability_eq_true_iff]
  simp

theorem findById_eq_some {store : List Booking} {id : Nat} {b : Booking}
    (h : Booking.findById store id = some b) : b ∈ store ∧ b._id = id := by
  unfold Booking.findById at h
  exact ⟨List.mem_of_find?_eq_some h, by simpa using List.find?_some h⟩

theorem findById_eq_none {store : List Booking} {id : Nat}
    (h : Booking.findById store id = none) : ∀ b ∈ store, b._id ≠ id := by
  unfold Booking.findById at h
  simpa [List.find?_eq_none] using h

theorem mem_updateById {s : List Booking} {id : Nat} {f : Booking → Booking} {x : Booking} :
    x ∈ Booking.updateById s id f ↔ ∃ y ∈ s, (if y._id = id then f y else y) = x := by
  simp [Booking.updateById, List.mem_map]

theorem findById_updateById (s : List Booking) (id j : Nat) (f : Booking → Booking)
    (hf : ∀ x, (f x)._id = x._id) :
    Booking.findById (Booking.updateById s j f) id =
      (Booking.findById s id).map (fun b => if b._id = j then f b else b) := by
  induction s with
  | nil => rfl
  | cons a t ih =>
    have hid : (if a._id = j then f a else a)._id = a._id := by
      split <;> simp [hf]
    simp only [Booking.findById, Booking.updateById, List.map_cons, List.find?_cons] at ih ⊢
    rw [hid]
    by_cases h : a._id = id
    · simp [h]
    · simpa [h] using ih

theorem uniqueIds_updateById {s : List Booking} (id : Nat) {f : Booking → Booking}
    (hf : KeepsSlot f) (hu : UniqueIds s) : UniqueIds (Booking.updateById s id f) := by
  intro b1 h1 b2 h2 hid
  obtain ⟨y1, hy1, rfl⟩ := mem_updateById.1 h1
  obtain ⟨y2, hy2, rfl⟩ := mem_updateById.1 h2
  have e1 : (if y1._id = id then f y1 else y1)._id = y1._id := by
    split <;> simp [(hf _).1]
  have e2 : (if y2._id = id then f y2 else y2)._id = y2._id := by
    split <;> simp [(hf _).1]
  rw [e1, e2] at hid
  rw [hu y1 hy1 y2 hy2 hid]

/-- An update by `_id` keeps the non-overlap invariant when it does not touch the slot and
every document it turns active is either active already or free of conflicts with the other
documents. -/
theorem nonOverlap_updateById {s : List Booking} (id : Nat) {f : Booking → Booking}
    (hf : KeepsSlot f) (hu : UniqueIds s) (hn : NonOverlap s)
    (hact : ∀ x ∈ s, x._id = id → (f x).active →
      x.active ∨ ∀ y ∈ s, y._id ≠ id → y.property = x.property → y.active →
        ¬ (y.checkIn < x.checkOut ∧ y.checkOut > x.checkIn)) :
    NonOverlap (Booking.updateById s id f) := by
  intro b1 h1 b2 h2 hne hp ha1 ha2
  obtain ⟨y1, hy1, rfl⟩ := mem_updateById.1 h1
  obtain ⟨y2, hy2, rfl⟩ := mem_updateById.1 h2
  have hy : y1 ≠ y2 := fun h => hne (by rw [h])
  have hids : y1._id ≠ y2._id := fun h => hy (hu y1 hy1 y2 hy2 h)
  by_cases c1 : y1._id = id
  · have c2 : y2._id ≠ id := fun h => hids (c1.trans h.symm)
    simp only [c1, c2, if_true, if_false] at hp ha1 ha2 ⊢
    obtain ⟨-, fp, fi, fo⟩ := hf y1
    rw [fp] at hp
    unfold Booking.overlaps
    rw [fi, fo]
    rcases hact y1 hy1 c1 ha1 with h | h
    · exact hn y1 hy1 y2 hy2 hy hp h ha2
    · intro hov
      exact h y2 hy2 c2 hp.symm ha2 ⟨hov.2, hov.1⟩
  · by_cases c2 : y2._id = id
    · simp only [c1, c2, if_true, if_false] at hp ha1 ha2 ⊢
      obtain ⟨-, fp, fi, fo⟩ := hf y2
      rw [fp] at hp
      unfold Booking.overlaps
      rw [fi, fo]
      rcases hact y2 hy2 c2 ha2 with h | h
      · exact hn y1 hy1 y2 hy2 hy hp ha1 h
      · exact h y1 hy1 c1 hp ha1
    · simp only [c1, c2, if_false] at hp ha1 ha2 ⊢
      exact hn y1 hy1 y2 hy2 hy hp ha1 ha2

theorem insert_eq_some {s s1 : List Booking} {b : Booking} (h : Booking.insert s b = some s1) :
    s1 = s ++ [b] ∧ ∀ x ∈ s, x._id ≠ b._id := by
  unfold Booking.insert at h
  split at h
  · cases h
  · rename_i hn
    simp only [Option.some.injEq] at h
    refine ⟨h.symm, findById_eq_none ?_⟩
    simpa using hn

theorem uniqueIds_append_fresh {s : List Booking} {b : Booking} (hu : UniqueIds s)
    (hfresh : ∀ x ∈ s, x._id ≠ b._id) : UniqueIds (s ++ [b]) := by
  intro b1 h1 b2 h2 hid
  simp only [List.mem_append, List.mem_singleton] at h1 h2
  rcases h1 with h1 | rfl <;> rcases h2 with h2 | rfl
  · exact hu b1 h1 b2 h2 hid
  · exact absurd hid (hfresh b1 h1)
  · exact absurd hid.symm (hfresh b2 h2)
  · rfl

theorem nonOverlap_append_available {s : List Booking} {b : Booking} (hn : NonOverlap s)
    (hav : Booking.checkAvailability s b.property b.checkIn b.checkOut none = true) :
    NonOverlap (s ++ [b]) := by
  rw [checkAvailability_eq_true_iff] at hav
  have key : ∀ x ∈ s, x.property = b.property → x.active →
      ¬ (x.checkIn < b.checkOut ∧ x.checkOut > b.checkIn) := by
    intro x hx hp ha hov
    have := hav x hx
    rw [← Bool.not_eq_true, conflictQuery_iff] at this
    exact this ⟨hp, ha, hov, by simp⟩
  intro b1 h1 b2 h2 hne hp ha1 ha2
  simp only [List.mem_append, List.mem_singleton] at h1 h2
  rcases h1 with h1 | rfl <;> rcases h2 with h2 | rfl
  · exact hn b1 h1 b2 h2 hne hp ha1 ha2
  · exact key b1 h1 hp ha1
  · intro hov
    exact key b2 h2 hp.symm ha2 ⟨hov.2, hov.1⟩
  · exact absurd rfl hne

/-! ## Availability oracle -/

/-- C1: without an excluded id, `checkAvailability` answers `false` exactly when the
collection holds a booking of that property, pending or confirmed, whose interval satisfies
`existing.checkIn < checkOut` and `existing.checkOut > checkIn`; cancelled or completed
bookings and bookings of other properties have no influence on the answer. -/
theorem checkAvailability_false_iff_conflict (store : List Booking) (p : Nat) (ci co : Int) :
    (Booking.checkAvailability store p ci co none = false ↔
      ∃ b ∈ store, b.property = p ∧ (b.status = Status.pending ∨ b.status = Status.confirmed) ∧
        b.checkIn < co ∧ b.checkOut > ci) ∧
    Booking.checkAvailability store p ci co none =
      Booking.checkAvailability
        (store.filter (fun b => decide (b.property = p ∧
          (b.status = Status.pending ∨ b.status = Status.confirmed)))) p ci co none := by
  constructor
  · rw [checkAvailability_eq_false_iff]
    constructor
    · rintro ⟨b, hb, hq⟩
      rw [conflictQuery_iff] at hq
      exact ⟨b, hb, hq.1, hq.2.1, hq.2.2.1⟩
    · rintro ⟨b, hb, hp, hs, hi⟩
      exact ⟨b, hb, (conflictQuery_iff p ci co none b).2 ⟨hp, hs, hi, by simp⟩⟩
  · rw [Bool.eq_iff_iff, checkAvailability_eq_true_iff, checkAvailability_eq_true_iff]
    constructor
    · intro h b hb
      exact h b (List.mem_of_mem_filter hb)
    · intro h b hb
      by_cases hk : b.property = p ∧ (b.status = Status.pending ∨ b.status = Status.confirmed)
      · exact h b (List.mem_filter.2 ⟨hb, by simpa using hk⟩)
      · rw [← Bool.not_eq_true, conflictQuery_iff]
        rintro ⟨h1, h2, -⟩
        exact hk ⟨h1, h2⟩

/-- C2: `checkAvailability` with `excludeBookingId = b` answers as `checkAvailability`
without an excluded id does on the collection from which the booking with id `b` has been
removed. -/
theorem checkAvailability_exclude_eq_without (store : List Booking) (p : Nat) (ci co : Int)
    (b : Nat) :
    Booking.checkAvailability store p ci co (some b) =
      Booking.checkAvailability (Booking.without store b) p ci co none := by
  rw [Bool.eq_iff_iff, checkAvailability_eq_true_iff, checkAvailability_eq_true_iff]
  constructor
  · intro h x hx
    have hx2 := List.mem_filter.1 hx
    have := h x hx2.1
    rw [← Bool.not_eq_true, conflictQuery_iff] at this ⊢
    rintro ⟨h1, h2, h3, -⟩
    exact this ⟨h1, h2, h3, fun y hy => by
      cases hy
      simpa using hx2.2⟩
  · intro h x hx
    rw [← Bool.not_eq_true, conflictQuery_iff]
    rintro ⟨h1, h2, h3, h4⟩
    have hne : x._id ≠ b := h4 b rfl
    have hx2 : x ∈ Booking.without store b := List.mem_filter.2 ⟨hx, by simpa using hne⟩
    have := h x hx2
    rw [← Bool.not_eq_true, conflictQuery_iff] at this
    exact this ⟨h1, h2, h3, by simp⟩


/-! ## Case analysis of the handlers -/

theorem updateById_updateById (s : List Booking) (id : Nat) (f g : Booking → Booking)
    (hf : ∀ x, (f x)._id = x._id) :
    Booking.updateById (Booking.updateById s id f) id g = Booking.updateById s id (g ∘ f) := by
  simp only [Booking.updateById, List.map_map]
  apply List.map_congr_left
  intro a _
  by_cases h : a._id = id
  · simp [h, hf]
  · simp [h]

theorem confirmStrict_cases (env : ConfirmEnv) (s : List Booking) (id : Nat) (b : Booking)
    (calls : List Call) :
    ((confirmStrict env s id b calls).res.success = false ∧
      (confirmStrict env s id b calls).bookings = s) ∨
    ((confirmStrict env s id b calls).res.success = true ∧
      Booking.checkAvailability s b.property b.checkIn b.checkOut (some id) = true ∧
      env.retrieveStrict = RetrieveResult.success "succeeded" ∧
      (confirmStrict env s id b calls).bookings = Booking.updateById s b._id Booking.markConfirmed) := by
  unfold confirmStrict
  split
  · simp
  · split_ifs with h1 h2
    · simp
    · simp
    · right
      simp at h1 h2
      simp [h1, h2, *]

theorem confirmBooking_cases (env : ConfirmEnv) (s : List Booking) (actor id : Nat) :
    ((confirmBooking env s actor id).res.success = false ∧
      (confirmBooking env s actor id).bookings = s) ∨
    (∃ b, Booking.findById s id = some b ∧ b.user = actor ∧ b.status ≠ Status.confirmed ∧
      Booking.checkAvailability s b.property b.checkIn b.checkOut (some id) = true ∧
      (confirmBooking env s actor id).res.success = true ∧
      (confirmBooking env s actor id).bookings = Booking.updateById s id Booking.markConfirmed) := by
  cases hb : Booking.findById s id with
  | none => simp [confirmBooking, hb]
  | some b =>
    have hid : b._id = id := (findById_eq_some hb).2
    simp only [confirmBooking, hb]
    by_cases h1 : b.user ≠ actor
    · simp [h1]
    by_cases h2 : b.status = Status.confirmed
    · simp [h1, h2]
    simp only [h1, h2, if_false]
    simp only [ne_eq, not_not] at h1
    by_cases h3 : b.paymentStatus = PaymentStatus.paid
    · simp only [h3, if_true]
      split_ifs with h4
      · simp
      · right
        simp only [Bool.not_eq_false] at h4
        exact ⟨b, rfl, h1, h2, h4, rfl, by rw [hid]⟩
    simp only [h3, if_false]
    have hstrict : ∀ calls,
        ((confirmStrict env s id b calls).res.success = false ∧
          (confirmStrict env s id b calls).bookings = s) ∨
        (∃ b', some b = some b' ∧ b'.user = actor ∧ b'.status ≠ Status.confirmed ∧
          Booking.checkAvailability s b'.property b'.checkIn b'.checkOut (some id) = true ∧
          (confirmStrict env s id b calls).res.success = true ∧
          (confirmStrict env s id b calls).bookings =
            Booking.updateById s id Booking.markConfirmed) := by
      intro calls
      rcases confirmStrict_cases env s id b calls with h | h
      · exact Or.inl h
      · exact Or.inr ⟨b, rfl, h1, h2, h.2.1, h.1, by rw [h.2.2.2, hid]⟩
    by_cases h5 : env.development = true
    · simp only [h5, if_true]
      cases hr : env.retrieveDev with
      | failure e => exact hstrict _
      | success st =>
        simp only
        by_cases h6 : allowedStatuses.contains st = true
        · simp only [h6, if_true]
          by_cases h7 : Booking.checkAvailability s b.property b.checkIn b.checkOut (some id) = false
          · simp [h7]
          · simp only [Bool.not_eq_false] at h7
            have h7n : ¬ Booking.checkAvailability s b.property b.checkIn b.checkOut (some id)
                = false := by simp [h7]
            rw [if_neg h7n]
            refine Or.inr ⟨b, rfl, h1, h2, h7, rfl, ?_⟩
            rw [hid, updateById_updateById _ _ Booking.markConfirmed _ (fun _ => rfl)]
            rfl
        · simp only [h6]
          exact hstrict _
    · simp only [h5]
      exact hstrict _

theorem findByIdAndDelete_append_fresh {s : List Booking} {b : Booking}
    (hfresh : ∀ x ∈ s, x._id ≠ b._id) : Booking.findByIdAndDelete (s ++ [b]) b._id = s := by
  unfold Booking.findByIdAndDelete
  rw [List.eraseP_append_right]
  · simp [List.eraseP_cons]
  · intro x hx
    simpa using hfresh x hx

theorem updateById_append_fresh {s : List Booking} {b : Booking} (f : Booking → Booking)
    (hfresh : ∀ x ∈ s, x._id ≠ b._id) :
    Booking.updateById (s ++ [b]) b._id f = s ++ [f b] := by
  unfold Booking.updateById
  rw [List.map_append]
  congr 1
  · conv_rhs => rw [← List.map_id s]
    apply List.map_congr_left
    intro x hx
    simp [hfresh x hx]
  · simp

/-- Every run of `createBooking` either fails and leaves the collection as it was, or passes
all checks and appends one pending booking carrying the payment reference. -/
theorem createBooking_cases (env : CreateEnv) (s : List Booking) (userId : Nat)
    (req : CreateRequest) :
    ((createBooking env s userId req).res.success = false ∧
      (createBooking env s userId req).bookings = s ∧
      ((createBooking env s userId req).calls ≠ [] → ∀ x ∈ s, x._id ≠ env.newId)) ∨
    (∃ prop pid cs, req.checkIn < req.checkOut ∧ env.today ≤ req.checkIn ∧
      Property.findById env.properties req.propertyId = some prop ∧ prop.isActive = true ∧
      req.guests ≤ prop.maxGuests ∧ 1 ≤ req.guests ∧
      Booking.checkAvailability s req.propertyId req.checkIn req.checkOut none = true ∧
      (∀ x ∈ s, x._id ≠ env.newId) ∧
      env.paymentResult = PaymentResult.success pid cs ∧
      (createBooking env s userId req).res = ⟨201, true, "Booking created successfully"⟩ ∧
      (createBooking env s userId req).bookings = s ++
        [{ _id := env.newId, property := req.propertyId, user := userId,
           checkIn := req.checkIn, checkOut := req.checkOut, guests := req.guests,
           totalAmount := jsTimes prop.pricePerNight
             (momentDiffDays env.utcOffset req.checkOutMoment req.checkInMoment),
           stripePaymentIntentId := some pid,
           status := Status.pending, paymentStatus := PaymentStatus.pending }]) := by
  unfold createBooking
  by_cases h1 : req.checkIn ≥ req.checkOut
  · simp [h1]
  rw [if_neg h1]
  by_cases h2 : req.checkIn < env.today
  · simp [h2]
  rw [if_neg h2]
  cases hp : Property.findById env.properties req.propertyId with
  | none => simp
  | some prop =>
    simp only
    by_cases h3 : prop.isActive = false
    · simp [h3]
    rw [if_neg h3]
    by_cases h4 : req.guests > prop.maxGuests
    · simp [h4]
    rw [if_neg h4]
    by_cases h5 : Booking.checkAvailability s req.propertyId req.checkIn req.checkOut none = false
    · simp [h5]
    rw [if_neg h5]
    by_cases h6 : req.guests < 1
    · simp [h6]
    simp only [if_neg h6]
    cases hi : Booking.insert s _ with
    | none => simp
    | some s1 =>
      obtain ⟨rfl, hfresh⟩ := insert_eq_some hi
      cases hpay : env.paymentResult with
      | failure e =>
        left
        exact ⟨rfl, findByIdAndDelete_append_fresh hfresh, fun _ => hfresh⟩
      | success pid cs =>
        right
        refine ⟨prop, pid, cs, by omega, by omega, rfl, by simpa using h3, by omega, by omega,
          by simpa using h5, hfresh, rfl, rfl, ?_⟩
        exact updateById_append_fresh _ hfresh

theorem cancelBooking_cases (now : Int) (s : List Booking) (actor id : Nat) :
    ((cancelBooking now s actor id).res.success = false ∧
      (cancelBooking now s actor id).bookings = s) ∨
    (∃ b, Booking.findById s id = some b ∧ b.user = actor ∧
      ¬ (momentDiff b.checkIn now msPerHour < 24 ∧ b.status = Status.confirmed) ∧
      ¬ (b.status = Status.cancelled ∨ b.status = Status.completed) ∧
      (cancelBooking now s actor id).res.success = true ∧
      (cancelBooking now s actor id).bookings =
        Booking.updateById s id (fun b => { b with status := Status.cancelled })) := by
  cases hb : Booking.findById s id with
  | none => simp [cancelBooking, hb]
  | some b =>
    have hid : b._id = id := (findById_eq_some hb).2
    simp only [cancelBooking, hb]
    by_cases h1 : b.user ≠ actor
    · simp [h1]
    rw [if_neg h1]
    simp only [ne_eq, not_not] at h1
    by_cases h2 : momentDiff b.checkIn now msPerHour < 24 ∧ b.status = Status.confirmed
    · simp [h2]
    rw [if_neg h2]
    by_cases h3 : b.status = Status.cancelled ∨ b.status = Status.completed
    · simp [h3]
    rw [if_neg h3]
    exact Or.inr ⟨b, rfl, h1, h2, h3, rfl, by rw [hid]⟩

theorem patchBooking_cases (s : List Booking) (id : Nat) (body : PatchBody) :
    ((patchBooking s id body).res.success = false ∧ (patchBooking s id body).bookings = s) ∨
    (∃ ps, body.paymentStatus.bind PaymentStatus.ofString = some ps ∧
      (patchBooking s id body).res.success = true ∧
      (patchBooking s id body).bookings = Booking.updateById s id
        (fun b => { b with paymentStatus := ps,
                           stripePaymentIntentId := body.stripePaymentIntentId })) := by
  unfold patchBooking
  by_cases h1 : truthy body.paymentStatus = false ∨ truthy body.stripePaymentIntentId = false
  · simp [h1]
  rw [if_neg h1]
  cases hps : body.paymentStatus.bind PaymentStatus.ofString with
  | none => simp
  | some ps =>
    cases hb : Booking.findById s id with
    | none => simp
    | some b => exact Or.inr ⟨ps, rfl, rfl, rfl⟩

/-- The invariant carried along every run: unique ids and no overlap among active bookings. -/
theorem createBooking_preserves (env : CreateEnv) (s : List Booking) (userId : Nat)
    (req : CreateRequest) (h : UniqueIds s ∧ NonOverlap s) :
    UniqueIds (createBooking env s userId req).bookings ∧
      NonOverlap (createBooking env s userId req).bookings := by
  rcases createBooking_cases env s userId req with hc | ⟨prop, pid, cs, -, -, -, -, -, -, hav, hfresh, -, -, hc⟩
  · rw [hc.2.1]; exact h
  · rw [hc]
    exact ⟨uniqueIds_append_fresh h.1 hfresh, nonOverlap_append_available h.2 hav⟩

theorem confirmBooking_preserves (env : ConfirmEnv) (s : List Booking) (actor id : Nat)
    (h : UniqueIds s ∧ NonOverlap s) :
    UniqueIds (confirmBooking env s actor id).bookings ∧
      NonOverlap (confirmBooking env s actor id).bookings := by
  rcases confirmBooking_cases env s actor id with hc | ⟨b, hb, -, -, hav, -, hc⟩
  · rw [hc.2]; exact h
  · rw [hc]
    have hk : KeepsSlot Booking.markConfirmed := fun _ => ⟨rfl, rfl, rfl, rfl⟩
    refine ⟨uniqueIds_updateById id hk h.1, nonOverlap_updateById id hk h.1 h.2 ?_⟩
    intro x hx hxid _
    right
    obtain ⟨hbm, hbid⟩ := findById_eq_some hb
    have hxb : x = b := h.1 x hx b hbm (hxid.trans hbid.symm)
    subst hxb
    rw [checkAvailability_eq_true_iff] at hav
    intro y hy hyid hyp hya hov
    have := hav y hy
    rw [← Bool.not_eq_true, conflictQuery_iff] at this
    exact this ⟨hyp, hya, hov, fun z hz => by cases hz; exact hyid⟩

theorem cancelBooking_preserves (now : Int) (s : List Booking) (actor id : Nat)
    (h : UniqueIds s ∧ NonOverlap s) :
    UniqueIds (cancelBooking now s actor id).bookings ∧
      NonOverlap (cancelBooking now s actor id).bookings := by
  rcases cancelBooking_cases now s actor id with hc | ⟨b, -, -, -, -, -, hc⟩
  · rw [hc.2]; exact h
  · rw [hc]
    have hk : KeepsSlot (fun b : Booking => { b with status := Status.cancelled }) :=
      fun _ => ⟨rfl, rfl, rfl, rfl⟩
    refine ⟨uniqueIds_updateById id hk h.1, nonOverlap_updateById id hk h.1 h.2 ?_⟩
    intro x _ _ ha
    simp [Booking.active] at ha

theorem patchBooking_preserves (s : List Booking) (id : Nat) (body : PatchBody)
    (h : UniqueIds s ∧ NonOverlap s) :
    UniqueIds (patchBooking s id body).bookings ∧ NonOverlap (patchBooking s id body).bookings := by
  rcases patchBooking_cases s id body with hc | ⟨ps, -, -, hc⟩
  · rw [hc.2]; exact h
  · rw [hc]
    refine ⟨uniqueIds_updateById id (fun _ => ⟨rfl, rfl, rfl, rfl⟩) h.1,
      nonOverlap_updateById id (fun _ => ⟨rfl, rfl, rfl, rfl⟩) h.1 h.2 ?_⟩
    intro x _ _ ha
    exact Or.inl ha

theorem reachable_invariant {s : List Booking} (h : Reachable s) : UniqueIds s ∧ NonOverlap s := by
  induction h with
  | empty => exact ⟨fun _ h => (by cases h), fun _ h => (by cases h)⟩
  | create env userId req _ ih => exact createBooking_preserves env _ userId req ih
  | confirm env actor id _ ih => exact confirmBooking_preserves env _ actor id ih
  | cancel now actor id _ ih => exact cancelBooking_preserves now _ actor id ih
  | patch id body _ ih => exact patchBooking_preserves _ id body ih

/-- C3: in every collection reachable from the empty one by runs of `createBooking`,
`confirmBooking`, `cancelBooking` and `PATCH /:id`, one after the other, two distinct bookings
of the same property that are both pending or confirmed never satisfy
`b1.checkIn < b2.checkOut` and `b1.checkOut > b2.checkIn`. -/
theorem reachable_nonOverlap (s : List Booking) (h : Reachable s) :
    ∀ b1 ∈ s, ∀ b2 ∈ s, b1 ≠ b2 → b1.property = b2.property →
      (b1.status = Status.pending ∨ b1.status = Status.confirmed) →
      (b2.status = Status.pending ∨ b2.status = Status.confirmed) →
      ¬ (b1.checkIn < b2.checkOut ∧ b1.checkOut > b2.checkIn) :=
  (reachable_invariant h).2

theorem reachable_nonOverlap_witness :
    Reachable sampleTwoStays ∧
    ∀ b1 ∈ sampleTwoStays, ∀ b2 ∈ sampleTwoStays, b1 ≠ b2 → b1.property = b2.property →
      (b1.status = Status.pending ∨ b1.status = Status.confirmed) →
      (b2.status = Status.pending ∨ b2.status = Status.confirmed) →
      ¬ (b1.checkIn < b2.checkOut ∧ b1.checkOut > b2.checkIn) :=
  ⟨Reachable.create _ _ _ (Reachable.create _ _ _ Reachable.empty),
    reachable_nonOverlap sampleTwoStays
      (Reachable.create _ _ _ (Reachable.create _ _ _ Reachable.empty))⟩

/-! ## `createBooking` -/

/-- C4: for a request that is otherwise valid (`checkIn < checkOut`, `checkIn` not before
today, active property, guests within capacity) on a property whose only active booking is
`b0 = [s, e)`, `createBooking` answers 400 "Property not available for selected dates" exactly
when `checkIn < e` and `checkOut > s`; a request that does not overlap (such as one whose
`checkOut` equals `s`) is created, given a guest count of at least one, an unused id and an
accepted payment intent. -/
theorem createBooking_conflict_iff (env : CreateEnv) (store : List Booking) (userId : Nat)
    (req : CreateRequest) (prop : Property) (b0 : Booking)
    (hdates : req.checkIn < req.checkOut) (htoday : env.today ≤ req.checkIn)
    (hprop : Property.findById env.properties req.propertyId = some prop)
    (hactive : prop.isActive = true) (hguests : req.guests ≤ prop.maxGuests)
    (hb0 : b0 ∈ store) (hb0p : b0.property = req.propertyId) (hb0a : b0.active)
    (honly : ∀ b ∈ store, b.property = req.propertyId → b.active → b = b0) :
    ((createBooking env store userId req).res =
        ⟨400, false, "Property not available for selected dates"⟩ ↔
      req.checkIn < b0.checkOut ∧ req.checkOut > b0.checkIn) ∧
    (¬ (req.checkIn < b0.checkOut ∧ req.checkOut > b0.checkIn) → 1 ≤ req.guests →
      Booking.findById store env.newId = none →
      (∃ pid cs, env.paymentResult = PaymentResult.success pid cs) →
      (createBooking env store userId req).res = ⟨201, true, "Booking created successfully"⟩) := by
  have hav : Booking.checkAvailability store req.propertyId req.checkIn req.checkOut none = false ↔
      req.checkIn < b0.checkOut ∧ req.checkOut > b0.checkIn := by
    rw [checkAvailability_eq_false_iff]
    constructor
    · rintro ⟨b, hb, hq⟩
      rw [conflictQuery_iff] at hq
      rw [← honly b hb hq.1 hq.2.1]
      exact ⟨hq.2.2.1.2, hq.2.2.1.1⟩
    · intro h
      exact ⟨b0, hb0, (conflictQuery_iff _ _ _ _ _).2 ⟨hb0p, hb0a, ⟨h.2, h.1⟩, by simp⟩⟩
  have h3 : ¬ prop.isActive = false := by simp [hactive]
  unfold createBooking
  rw [if_neg (not_le.2 hdates), if_neg (not_lt.2 htoday)]
  simp only [hprop]
  rw [if_neg h3, if_neg (not_lt.2 hguests)]
  by_cases hc : Booking.checkAvailability store req.propertyId req.checkIn req.checkOut none = false
  · rw [if_pos hc]
    exact ⟨⟨fun _ => hav.1 hc, fun _ => rfl⟩, fun h => absurd (hav.1 hc) h⟩
  · rw [if_neg hc]
    have hno : ¬ (req.checkIn < b0.checkOut ∧ req.checkOut > b0.checkIn) := fun h => hc (hav.2 h)
    constructor
    · constructor
      · intro h
        exfalso
        revert h
        split_ifs
        · simp
        · split
          · simp
          · split <;> simp
      · intro h
        exact absurd h hno
    · rintro - hg hfresh ⟨pid, cs, hpay⟩
      rw [if_neg (not_lt.2 hg)]
      simp [Booking.insert, hfresh, hpay]

/-- C5: when `stripeService.createPaymentIntent` replies with a failure, `createBooking`
answers with a failure and the collection afterwards equals the collection before the call;
in particular, once the payment call was made, a lookup of the provisional booking's id
finds nothing. -/
theorem createBooking_rollback (env : CreateEnv) (store : List Booking) (userId : Nat)
    (req : CreateRequest) (e : String) (hfail : env.paymentResult = PaymentResult.failure e) :
    (createBooking env store userId req).res.success = false ∧
    (createBooking env store userId req).bookings = store ∧
    ((createBooking env store userId req).calls ≠ [] →
      Booking.findById (createBooking env store userId req).bookings env.newId = none) := by
  rcases createBooking_cases env store userId req with hc | ⟨prop, pid, cs, -, -, -, -, -, -, -, -, hpay, -, -⟩
  · refine ⟨hc.1, hc.2.1, fun hcalls => ?_⟩
    rw [hc.2.1]
    unfold Booking.findById
    rw [List.find?_eq_none]
    intro x hx
    simpa using hc.2.2 hcalls x hx
  · rw [hfail] at hpay
    cases hpay


theorem createBooking_conflict_iff_witness :
    (createBooking (sampleCreateEnv 2) [sampleConfirmed] 8 (sampleRequest 1 5)).res =
      ⟨400, false, "Property not available for selected dates"⟩ ∧
    (createBooking (sampleCreateEnv 2) [sampleConfirmed] 8 (sampleRequest 1 4)).res =
      ⟨201, true, "Booking created successfully"⟩ :=
  ⟨(createBooking_conflict_iff (sampleCreateEnv 2) [sampleConfirmed] 8 (sampleRequest 1 5)
      sampleProperty sampleConfirmed (by decide) (by decide) (by decide) (by decide) (by decide)
      (by decide) (by decide) (by decide) (by decide)).1.2 (by decide),
   (createBooking_conflict_iff (sampleCreateEnv 2) [sampleConfirmed] 8 (sampleRequest 1 4)
      sampleProperty sampleConfirmed (by decide) (by decide) (by decide) (by decide) (by decide)
      (by decide) (by decide) (by decide) (by decide)).2 (by decide) (by decide) (by decide)
      ⟨"pi_new", "secret", rfl⟩⟩

theorem createBooking_rollback_witness :
    (sampleCreateEnvFailing 2).paymentResult = PaymentResult.failure "card_declined" ∧
    (createBooking (sampleCreateEnvFailing 2) [sampleConfirmed] 8 (sampleRequest 1 4)).res.success
      = false ∧
    (createBooking (sampleCreateEnvFailing 2) [sampleConfirmed] 8 (sampleRequest 1 4)).bookings
      = [sampleConfirmed] ∧
    Booking.findById
      (createBooking (sampleCreateEnvFailing 2) [sampleConfirmed] 8 (sampleRequest 1 4)).bookings 2
      = none :=
  have h := createBooking_rollback (sampleCreateEnvFailing 2) [sampleConfirmed] 8
    (sampleRequest 1 4) "card_declined" rfl
  ⟨rfl, h.1, h.2.1, h.2.2 (by decide)⟩


/-! ## `confirmBooking` -/

theorem confirmStrict_calls (env : ConfirmEnv) (s : List Booking) (id : Nat) (b : Booking)
    (calls : List Call) :
    Call.retrievePaymentIntent b.stripePaymentIntentId ∈ (confirmStrict env s id b calls).calls := by
  unfold confirmStrict
  split
  · simp
  · split_ifs <;> simp

/-- C6, as the code has it: a booking that is already confirmed is refused. -/
theorem confirmBooking_confirmed_refused :
    sampleConfirmed.status = Status.confirmed ∧ sampleConfirmed.user = 7 ∧
    Booking.findById [sampleConfirmed] 1 = some sampleConfirmed ∧
    (confirmBooking sampleStrictEnvSucceeded [sampleConfirmed] 7 1).res =
      ⟨400, false, "Booking is already confirmed"⟩ ∧
    ¬ (confirmBooking sampleStrictEnvSucceeded [sampleConfirmed] 7 1).res.success = true := by
  decide

/-- C6, amended: for a booking that is already confirmed and owned by the caller,
`confirmBooking` answers with the failure 400 "Booking is already confirmed", leaves the
collection unchanged and calls no collaborator; so after a `confirmBooking` that succeeded,
a second call on the same booking gets that failure, with no change of state. -/
theorem confirmBooking_already_confirmed (env env2 : ConfirmEnv) (store : List Booking)
    (actor id : Nat) (b : Booking) (hb : Booking.findById store id = some b)
    (hown : b.user = actor) :
    (b.status = Status.confirmed →
      confirmBooking env store actor id =
        ⟨⟨400, false, "Booking is already confirmed"⟩, store, []⟩) ∧
    ((confirmBooking env store actor id).res.success = true →
      confirmBooking env2 (confirmBooking env store actor id).bookings actor id =
        ⟨⟨400, false, "Booking is already confirmed"⟩,
          (confirmBooking env store actor id).bookings, []⟩) := by
  have key : ∀ (e : ConfirmEnv) (s : List Booking) (x : Booking),
      Booking.findById s id = some x → x.user = actor → x.status = Status.confirmed →
      confirmBooking e s actor id = ⟨⟨400, false, "Booking is already confirmed"⟩, s, []⟩ := by
    intro e s x hx hu hs
    simp [confirmBooking, hx, hu, hs]
  refine ⟨key env store b hb hown, fun hsucc => ?_⟩
  rcases confirmBooking_cases env store actor id with hc | ⟨b', hb', -, -, -, -, hc⟩
  · rw [hc.1] at hsucc
    cases hsucc
  · rw [hb] at hb'
    cases hb'
    have hid : b._id = id := (findById_eq_some hb).2
    have hfind : Booking.findById (confirmBooking env store actor id).bookings id =
        some b.markConfirmed := by
      rw [hc, findById_updateById _ _ _ Booking.markConfirmed (fun _ => rfl), hb]
      simp [hid]
    exact key env2 _ b.markConfirmed hfind hown rfl

theorem confirmBooking_already_confirmed_witness :
    confirmBooking sampleStrictEnvSucceeded [sampleConfirmed] 7 1 =
      ⟨⟨400, false, "Booking is already confirmed"⟩, [sampleConfirmed], []⟩ ∧
    confirmBooking sampleStrictEnvSucceeded
        (confirmBooking sampleStrictEnvNoStripe samplePatchedPaid 7 1).bookings 7 1 =
      ⟨⟨400, false, "Booking is already confirmed"⟩,
        (confirmBooking sampleStrictEnvNoStripe samplePatchedPaid 7 1).bookings, []⟩ :=
  ⟨(confirmBooking_already_confirmed sampleStrictEnvSucceeded sampleStrictEnvSucceeded
      [sampleConfirmed] 7 1 sampleConfirmed (by decide) (by decide)).1 (by decide),
   (confirmBooking_already_confirmed sampleStrictEnvNoStripe sampleStrictEnvSucceeded
      samplePatchedPaid 7 1
      { _id := 1, property := 10, user := 7, checkIn := june2025 4, checkOut := june2025 10,
        guests := 2, totalAmount := 600, stripePaymentIntentId := some "pi_new",
        status := Status.pending, paymentStatus := PaymentStatus.paid }
      (by decide) (by decide)).2 (by decide)⟩

/-- C7, as the code has it: under the strict policy a booking whose cached `paymentStatus` is
`paid` is confirmed although Stripe is never asked (here it could not even be reached). -/
theorem confirmBooking_cached_paid_skips_stripe :
    sampleStrictEnvNoStripe.development = false ∧
    (∃ b, Booking.findById samplePatchedPaid 1 = some b ∧ b.status = Status.pending) ∧
    (∃ b, Booking.findById
        (confirmBooking sampleStrictEnvNoStripe samplePatchedPaid 7 1).bookings 1 = some b ∧
      b.status = Status.confirmed) ∧
    (confirmBooking sampleStrictEnvNoStripe samplePatchedPaid 7 1).calls.any Call.isRetrieve
      = false := by
  decide

/-- C7, amended: under the strict (non-development) policy, `confirmBooking` changes a
booking's status to confirmed only if the cached `paymentStatus` already is `paid`, or
`stripeService.retrievePaymentIntent` was called for the stored payment reference during that
call and reported status `succeeded`. -/
theorem confirmBooking_strict_confirms_only_if (env : ConfirmEnv) (store : List Booking)
    (actor id : Nat) (b : Booking) (hdev : env.development = false)
    (hb : Booking.findById store id = some b) (hnc : b.status ≠ Status.confirmed)
    (hafter : ∃ b', Booking.findById (confirmBooking env store actor id).bookings id = some b' ∧
      b'.status = Status.confirmed) :
    b.paymentStatus = PaymentStatus.paid ∨
    (Call.retrievePaymentIntent b.stripePaymentIntentId ∈
        (confirmBooking env store actor id).calls ∧
      env.retrieveStrict = RetrieveResult.success "succeeded") := by
  by_cases hpaid : b.paymentStatus = PaymentStatus.paid
  · exact Or.inl hpaid
  right
  obtain ⟨b', hb', hs'⟩ := hafter
  have hne : (confirmBooking env store actor id).bookings ≠ store := by
    intro h
    rw [h, hb] at hb'
    cases hb'
    exact hnc hs'
  by_cases hu : b.user ≠ actor
  · exact absurd (by simp [confirmBooking, hb, hu]) hne
  have hunf : confirmBooking env store actor id =
      confirmStrict env store id b [Call.guestyCreateBooking b._id] := by
    simp [confirmBooking, hb, hu, hnc, hpaid, hdev]
  rw [hunf] at hne ⊢
  refine ⟨confirmStrict_calls _ _ _ _ _, ?_⟩
  rcases confirmStrict_cases env store id b [Call.guestyCreateBooking b._id] with h | h
  · exact absurd h.2 hne
  · exact h.2.2.1


theorem confirmBooking_strict_confirms_only_if_witness :
    samplePending.paymentStatus = PaymentStatus.paid ∨
    (Call.retrievePaymentIntent samplePending.stripePaymentIntentId ∈
        (confirmBooking sampleStrictEnvSucceeded [samplePending] 8 2).calls ∧
      sampleStrictEnvSucceeded.retrieveStrict = RetrieveResult.success "succeeded") :=
  confirmBooking_strict_confirms_only_if sampleStrictEnvSucceeded [samplePending] 8 2
    samplePending rfl (by decide) (by decide) ⟨samplePending.markConfirmed, by decide, by decide⟩

/-! ## Payment and booking status -/

/-- C8, as the code has it: create, confirm under the strict policy, then `PATCH /:id` with
`paymentStatus: 'refunded'` leaves a confirmed booking whose `paymentStatus` is not `paid`. -/
theorem reachable_confirmed_not_paid :
    Reachable sampleRefunded ∧
    ∃ b ∈ sampleRefunded, b.status = Status.confirmed ∧ b.paymentStatus ≠ PaymentStatus.paid :=
  ⟨Reachable.patch _ _ (Reachable.confirm _ _ _ (Reachable.create _ _ _ Reachable.empty)),
    by decide⟩

theorem ofString_paid : PaymentStatus.ofString "paid" = some PaymentStatus.paid := by decide

/-- C8, amended: in every collection reachable by runs of `createBooking`, `confirmBooking`,
`cancelBooking` and those `PATCH /:id` requests that do not write a `paymentStatus` other than
`paid` onto a confirmed booking, every booking with status confirmed has `paymentStatus` paid. -/
theorem reachableGuarded_confirmed_paid (s : List Booking) (h : ReachableGuarded s) :
    ∀ b ∈ s, b.status = Status.confirmed → b.paymentStatus = PaymentStatus.paid := by
  induction h with
  | empty => exact fun _ hb => (by cases hb)
  | create env userId req _ ih =>
    rename_i s0 _
    rcases createBooking_cases env s0 userId req with hc | ⟨_, _, _, -, -, -, -, -, -, -, -, -, -, hc⟩
    · rw [hc.2.1]; exact ih
    · rw [hc]
      intro b hb hs
      simp only [List.mem_append, List.mem_singleton] at hb
      rcases hb with hb | rfl
      · exact ih b hb hs
      · cases hs
  | confirm env actor id _ ih =>
    rename_i s0 _
    rcases confirmBooking_cases env s0 actor id with hc | ⟨_, -, -, -, -, -, hc⟩
    · rw [hc.2]; exact ih
    · rw [hc]
      intro b hb hs
      obtain ⟨y, hy, rfl⟩ := mem_updateById.1 hb
      by_cases hid : y._id = id
      · simp [hid, Booking.markConfirmed]
      · rw [if_neg hid] at hs ⊢
        exact ih y hy hs
  | cancel now actor id _ ih =>
    rename_i s0 _
    rcases cancelBooking_cases now s0 actor id with hc | ⟨_, -, -, -, -, -, hc⟩
    · rw [hc.2]; exact ih
    · rw [hc]
      intro b hb hs
      obtain ⟨y, hy, rfl⟩ := mem_updateById.1 hb
      by_cases hid : y._id = id
      · simp [hid] at hs
      · rw [if_neg hid] at hs ⊢
        exact ih y hy hs
  | patch id body hguard _ ih =>
    rename_i s0 _
    rcases patchBooking_cases s0 id body with hc | ⟨ps, hps, -, hc⟩
    · rw [hc.2]; exact ih
    · rw [hc]
      intro b hb hs
      obtain ⟨y, hy, rfl⟩ := mem_updateById.1 hb
      by_cases hid : y._id = id
      · rw [if_pos hid] at hs ⊢
        have hpaid := hguard y hy hid hs
        rw [hpaid] at hps
        simp only [Option.bind, ofString_paid, Option.some.injEq] at hps
        exact hps.symm
      · rw [if_neg hid] at hs ⊢
        exact ih y hy hs

theorem reachableGuarded_confirmed_paid_witness :
    ReachableGuarded (confirmBooking sampleStrictEnvNoStripe samplePatchedPaid 7 1).bookings ∧
    ∀ b ∈ (confirmBooking sampleStrictEnvNoStripe samplePatchedPaid 7 1).bookings,
      b.status = Status.confirmed → b.paymentStatus = PaymentStatus.paid :=
  have hr : ReachableGuarded (confirmBooking sampleStrictEnvNoStripe samplePatchedPaid 7 1).bookings :=
    ReachableGuarded.confirm _ _ _
      (ReachableGuarded.patch _ _ (by decide)
        (ReachableGuarded.create _ _ _ ReachableGuarded.empty))
  ⟨hr, reachableGuarded_confirmed_paid _ hr⟩

/-- C9: when the interval of a booking (not yet confirmed, or in any other status) conflicts
with another active booking of the same property (`checkAvailability` excluding the booking's
own id answers `false`),
`confirmBooking` answers with a failure and leaves the collection, hence the booking's
`status` and `paymentStatus`, as before the call; this holds for every environment, so on the
cached-paid, development and strict paths alike. -/
theorem confirmBooking_conflict_unchanged (env : ConfirmEnv) (store : List Booking)
    (actor id : Nat) (b : Booking) (hb : Booking.findById store id = some b)
    (hconflict : Booking.checkAvailability store b.property b.checkIn b.checkOut (some id)
      = false) :
    (confirmBooking env store actor id).res.success = false ∧
    (confirmBooking env store actor id).bookings = store ∧
    (∃ b', Booking.findById (confirmBooking env store actor id).bookings id = some b' ∧
      b'.status = b.status ∧ b'.paymentStatus = b.paymentStatus) := by
  rcases confirmBooking_cases env store actor id with hc | ⟨b', hb', -, -, hav, -, -⟩
  · exact ⟨hc.1, hc.2, b, by rw [hc.2, hb], rfl, rfl⟩
  · rw [hb] at hb'
    cases hb'
    rw [hconflict] at hav
    cases hav


theorem confirmBooking_conflict_unchanged_witness :
    Booking.checkAvailability [sampleConfirmed, samplePending] samplePending.property
      samplePending.checkIn samplePending.checkOut (some 2) = false ∧
    (confirmBooking sampleDevEnvSucceeded [sampleConfirmed, samplePending] 8 2).res.success
      = false ∧
    (confirmBooking sampleDevEnvSucceeded [sampleConfirmed, samplePending] 8 2).bookings
      = [sampleConfirmed, samplePending] :=
  have h := confirmBooking_conflict_unchanged sampleDevEnvSucceeded
    [sampleConfirmed, samplePending] 8 2 samplePending (by decide) (by decide)
  ⟨by decide, h.1, h.2.1⟩

/-! ## `cancelBooking` -/

/-- C10: for an existing booking, `cancelBooking` succeeds exactly when the actor owns the
booking, its status is neither cancelled nor completed, and it is not the case that the status
is confirmed with fewer than 24 hours until check-in; on success the stored status is
cancelled; a pending booking of the actor is cancelled whatever the hours until check-in. -/
theorem cancelBooking_success_iff (now : Int) (store : List Booking) (actor id : Nat)
    (b : Booking) (hb : Booking.findById store id = some b) :
    ((cancelBooking now store actor id).res.success = true ↔
      b.user = actor ∧ ¬ (b.status = Status.cancelled ∨ b.status = Status.completed) ∧
        ¬ (b.status = Status.confirmed ∧ momentDiff b.checkIn now msPerHour < 24)) ∧
    ((cancelBooking now store actor id).res.success = true →
      Booking.findById (cancelBooking now store actor id).bookings id =
        some { b with status := Status.cancelled }) ∧
    (b.user = actor → b.status = Status.pending →
      (cancelBooking now store actor id).res.success = true) := by
  have hid : b._id = id := (findById_eq_some hb).2
  have hiff : (cancelBooking now store actor id).res.success = true ↔
      b.user = actor ∧ ¬ (b.status = Status.cancelled ∨ b.status = Status.completed) ∧
        ¬ (b.status = Status.confirmed ∧ momentDiff b.checkIn now msPerHour < 24) := by
    simp only [cancelBooking, hb]
    by_cases h1 : b.user ≠ actor
    · simp [h1]
    rw [if_neg h1]
    simp only [ne_eq, not_not] at h1
    by_cases h2 : momentDiff b.checkIn now msPerHour < 24 ∧ b.status = Status.confirmed
    · simp [h2]
    rw [if_neg h2]
    by_cases h3 : b.status = Status.cancelled ∨ b.status = Status.completed
    · simp [h3]
    rw [if_neg h3]
    simp only [true_iff]
    exact ⟨h1, h3, fun h => h2 ⟨h.2, h.1⟩⟩
  refine ⟨hiff, fun hs => ?_, fun hu hp => hiff.2 ⟨hu, by simp [hp], by simp [hp]⟩⟩
  rcases cancelBooking_cases now store actor id with hc | ⟨b', hb', -, -, -, -, hc⟩
  · rw [hc.1] at hs
    cases hs
  · rw [hc, findById_updateById _ _ _ (fun x => { x with status := Status.cancelled })
      (fun _ => rfl), hb]
    simp [hid]

theorem cancelBooking_success_iff_witness :
    (cancelBooking (june2025 9) [sampleConfirmed, samplePending] 8 2).res.success = true ∧
    ¬ (cancelBooking (june2025 4 - 23 * msPerHour) [sampleConfirmed, samplePending] 7 1).res.success
      = true :=
  ⟨(cancelBooking_success_iff (june2025 9) [sampleConfirmed, samplePending] 8 2 samplePending
      (by decide)).2.2 (by decide) (by decide),
   fun h => ((cancelBooking_success_iff (june2025 4 - 23 * msPerHour)
      [sampleConfirmed, samplePending] 7 1 sampleConfirmed (by decide)).1.1 h).2.2
        (by decide)⟩

/-! ## Cancellation window -/

theorem momentDiff_hours_lt_iff (d : Int) :
    Int.tdiv d msPerHour < 24 ↔ d < 24 * msPerHour := by
  unfold msPerHour
  rcases Int.le_total 0 d with h | h
  · rw [Int.tdiv_eq_ediv h (by decide)]
    omega
  · have h2 : 0 ≤ Int.tdiv (-d) (60 * 60 * 1000) := Int.tdiv_nonneg (by omega) (by decide)
    rw [Int.neg_tdiv] at h2
    constructor
    · intro _; omega
    · intro _; omega

/-- C11: for a confirmed booking owned by the actor, with `hoursToCheckIn` the difference
`checkIn - now` in whole hours truncated toward zero, `cancelBooking` fails exactly when
`checkIn - now` is below 24 hours in milliseconds and succeeds exactly when it is 24 hours or
more; a check-in 23 hours away is refused and one 25 hours away is cancelled. -/
theorem cancelBooking_window_boundary (now : Int) (store : List Booking) (actor id : Nat)
    (b : Booking) (hb : Booking.findById store id = some b) (hown : b.user = actor)
    (hconf : b.status = Status.confirmed) :
    ((cancelBooking now store actor id).res.success = false ↔
      b.checkIn - now < 24 * 3600000) ∧
    ((cancelBooking now store actor id).res.success = true ↔
      24 * 3600000 ≤ b.checkIn - now) ∧
    (b.checkIn - now = 23 * 3600000 →
      (cancelBooking now store actor id).res =
        ⟨400, false, "Cancellation not allowed within 24 hours of check-in"⟩) ∧
    (b.checkIn - now = 25 * 3600000 →
      (cancelBooking now store actor id).res = ⟨200, true, "Booking cancelled successfully"⟩) := by
  have hw : momentDiff b.checkIn now msPerHour < 24 ↔ b.checkIn - now < 24 * 3600000 := by
    unfold momentDiff
    rw [momentDiff_hours_lt_iff]
    unfold msPerHour
    omega
  have hunf : cancelBooking now store actor id =
      if momentDiff b.checkIn now msPerHour < 24 then
        ⟨⟨400, false, "Cancellation not allowed within 24 hours of check-in"⟩, store, []⟩
      else
        ⟨⟨200, true, "Booking cancelled successfully"⟩,
          Booking.updateById store b._id (fun x => { x with status := Status.cancelled }), []⟩ := by
    simp [cancelBooking, hb, hown, hconf]
  rw [hunf]
  by_cases hlt : momentDiff b.checkIn now msPerHour < 24
  · have h1 := hw.1 hlt
    rw [if_pos hlt]
    refine ⟨⟨fun _ => h1, fun _ => rfl⟩, ?_, fun _ => rfl, fun h => by omega⟩
    constructor
    · intro h; cases h
    · intro h; omega
  · have h1 : ¬ b.checkIn - now < 24 * 3600000 := fun h => hlt (hw.2 h)
    rw [if_neg hlt]
    refine ⟨?_, ?_, fun h => by omega, fun _ => rfl⟩
    · constructor
      · intro h; cases h
      · intro h; exact absurd h h1
    · constructor
      · intro _; omega
      · intro _; rfl

theorem cancelBooking_window_boundary_witness :
    (cancelBooking (june2025 4 - 23 * 3600000) [sampleConfirmed] 7 1).res =
      ⟨400, false, "Cancellation not allowed within 24 hours of check-in"⟩ ∧
    (cancelBooking (june2025 4 - 25 * 3600000) [sampleConfirmed] 7 1).res =
      ⟨200, true, "Booking cancelled successfully"⟩ ∧
    ((cancelBooking (june2025 4 - 24 * 3600000 + 1) [sampleConfirmed] 7 1).res.success = false ↔
      sampleConfirmed.checkIn - (june2025 4 - 24 * 3600000 + 1) < 24 * 3600000) :=
  ⟨(cancelBooking_window_boundary (june2025 4 - 23 * 3600000) [sampleConfirmed] 7 1
      sampleConfirmed (by decide) (by decide) (by decide)).2.2.1 (by decide),
   (cancelBooking_window_boundary (june2025 4 - 25 * 3600000) [sampleConfirmed] 7 1
      sampleConfirmed (by decide) (by decide) (by decide)).2.2.2 (by decide),
   (cancelBooking_window_boundary (june2025 4 - 24 * 3600000 + 1) [sampleConfirmed] 7 1
      sampleConfirmed (by decide) (by decide) (by decide)).1⟩

/-! ## Terminal states -/

/-- C12, at the failing input: a booking that its owner has cancelled is moved to confirmed
by `confirmBooking` once Stripe reports the payment intent as succeeded, while
`cancelBooking` and `PATCH /:id` leave the cancelled status in place. -/
theorem confirmBooking_revives_cancelled :
    (∃ b, Booking.findById sampleCancelled 1 = some b ∧ b.status = Status.cancelled) ∧
    (confirmBooking sampleStrictEnvSucceeded sampleCancelled 7 1).res.success = true ∧
    (∃ b, Booking.findById (confirmBooking sampleStrictEnvSucceeded sampleCancelled 7 1).bookings 1
        = some b ∧ b.status = Status.confirmed) ∧
    (∃ b, Booking.findById (cancelBooking 1747699200000 sampleCancelled 7 1).bookings 1
        = some b ∧ b.status = Status.cancelled) ∧
    (∃ b, Booking.findById (patchBooking sampleCancelled 1
          { paymentStatus := some "paid", stripePaymentIntentId := some "pi_new" }).bookings 1
        = some b ∧ b.status = Status.cancelled) := by
  decide

/-! ## Postconditions of `createBooking` -/

theorem findById_append_fresh {s : List Booking} {b : Booking}
    (hfresh : ∀ x ∈ s, x._id ≠ b._id) : Booking.findById (s ++ [b]) b._id = some b := by
  unfold Booking.findById
  rw [List.find?_append]
  have hnone : List.find? (fun x => decide (x._id = b._id)) s = none := by
    rw [List.find?_eq_none]
    intro x hx
    simpa using hfresh x hx
  rw [hnone]
  simp

/-- C13, as the code has it: on a server in New York a stay from 2025-03-08T05:00Z to
2025-03-10T04:00Z lasts 47 hours, one complete 24-hour day, yet it is priced as two nights
(200 at 100 per night), since moment's day difference takes off the change of the UTC offset
on 2025-03-09. -/
theorem createBooking_nights_across_offset_change :
    (createBooking (sampleCreateEnvNewYork 1) [] 7 sampleRequestAcrossDst).res =
      ⟨201, true, "Booking created successfully"⟩ ∧
    sampleRequestAcrossDst.checkOut - sampleRequestAcrossDst.checkIn = 47 * 3600000 ∧
    Int.tdiv (sampleRequestAcrossDst.checkOut - sampleRequestAcrossDst.checkIn) 86400000 = 1 ∧
    (∀ b ∈ (createBooking (sampleCreateEnvNewYork 1) [] 7 sampleRequestAcrossDst).bookings,
      b.totalAmount = 200 ∧
      b.totalAmount ≠
        jsTimes sampleProperty.pricePerNight (Int.tdiv (b.checkOut - b.checkIn) 86400000)) ∧
    (createBooking (sampleCreateEnvNewYork 1) [] 7 sampleRequestAcrossDst).bookings.length = 1 := by
  decide

/-- C13, amended: after every successful `createBooking` the persisted `totalAmount` is the
JavaScript product (the exact product rounded to the nearest double) of the property's
`pricePerNight` and `nights`, where `nights` is moment's day difference: the milliseconds
between `moment(checkOut)` and `moment(checkIn)`, less the change of the server's UTC offset
between the two instants, divided by 86400000 and truncated toward zero.  When the offset is
the same at both instants this is the number of complete 24-hour days between them, and when
both dates are given without a time part it is the number of complete days between the
stored `checkIn` and `checkOut`. -/
theorem createBooking_totalAmount (env : CreateEnv) (store : List Booking) (userId : Nat)
    (req : CreateRequest) (hsucc : (createBooking env store userId req).res.success = true) :
    ∃ prop b, Property.findById env.properties req.propertyId = some prop ∧
      Booking.findById (createBooking env store userId req).bookings env.newId = some b ∧
      b.totalAmount = jsTimes prop.pricePerNight
        (Int.tdiv (req.checkOutMoment - req.checkInMoment -
          (env.utcOffset req.checkInMoment - env.utcOffset req.checkOutMoment) * 60000)
          86400000) ∧
      (env.utcOffset req.checkInMoment = env.utcOffset req.checkOutMoment →
        b.totalAmount = jsTimes prop.pricePerNight
          (Int.tdiv (req.checkOutMoment - req.checkInMoment) 86400000)) ∧
      (req.checkInMoment = req.checkIn - env.utcOffset req.checkInMoment * 60000 →
        req.checkOutMoment = req.checkOut - env.utcOffset req.checkOutMoment * 60000 →
        b.totalAmount = jsTimes prop.pricePerNight
          (Int.tdiv (b.checkOut - b.checkIn) 86400000)) := by
  rcases createBooking_cases env store userId req with hc | ⟨prop, pid, cs, -, -, hp, -, -, -, -, hfresh, -, -, hc⟩
  · rw [hc.1] at hsucc
    cases hsucc
  · rw [hc]
    refine ⟨prop, _, hp, findById_append_fresh hfresh, rfl, ?_, ?_⟩
    · intro hoff
      simp only [momentDiffDays, msPerDay, hoff]
      congr 2
      omega
    · intro h1 h2
      simp only [momentDiffDays, msPerDay]
      congr 2
      omega

theorem createBooking_totalAmount_witness :
    sampleThreeNights.res.success = true ∧
    (∀ b ∈ sampleThreeNights.bookings, b.totalAmount = 300) ∧
    jsTimes samplePriceWithCents 3 = JsNumber.finite ⟨5277128047743467, -44⟩ ∧
    (∀ b ∈ (createBooking (sampleCreateEnvNewYork 1) [] 7 sampleRequestDateOnly).bookings,
      b.totalAmount = 200 ∧ b.checkOut - b.checkIn = 2 * 86400000) ∧
    ∃ prop b, Property.findById (sampleCreateEnvNewYork 1).properties
        sampleRequestDateOnly.propertyId = some prop ∧
      Booking.findById (createBooking (sampleCreateEnvNewYork 1) [] 7
        sampleRequestDateOnly).bookings 1 = some b ∧
      b.totalAmount = jsTimes prop.pricePerNight (Int.tdiv (b.checkOut - b.checkIn) 86400000) :=
  have h := createBooking_totalAmount (sampleCreateEnvNewYork 1) [] 7 sampleRequestDateOnly
    (by decide)
  ⟨by decide, by decide, by decide, by decide,
    h.elim fun prop h1 => h1.elim fun b h2 =>
      ⟨prop, b, h2.1, h2.2.1, h2.2.2.2.2 (by decide) (by decide)⟩⟩

/-- C15: every booking persisted by a successful `createBooking` has `checkIn < checkOut`,
`checkIn` not before the start of the current day, a guest count of at least one and at most
the property's `maxGuests`, status pending and payment status pending. -/
theorem createBooking_postcondition (env : CreateEnv) (store : List Booking) (userId : Nat)
    (req : CreateRequest) (hsucc : (createBooking env store userId req).res.success = true) :
    ∃ prop b, Property.findById env.properties req.propertyId = some prop ∧
      (createBooking env store userId req).bookings = store ++ [b] ∧
      Booking.findById (createBooking env store userId req).bookings env.newId = some b ∧
      b.checkIn < b.checkOut ∧ env.today ≤ b.checkIn ∧
      1 ≤ b.guests ∧ b.guests ≤ prop.maxGuests ∧
      b.status = Status.pending ∧ b.paymentStatus = PaymentStatus.pending := by
  rcases createBooking_cases env store userId req with hc | ⟨prop, pid, cs, h1, h2, hp, -, h3, h4, -, hfresh, -, -, hc⟩
  · rw [hc.1] at hsucc
    cases hsucc
  · rw [hc]
    exact ⟨prop, _, hp, rfl, findById_append_fresh hfresh, h1, h2, h4, h3, rfl, rfl⟩

theorem createBooking_postcondition_witness :
    sampleThreeNights.res.success = true ∧
    ∃ prop b, Property.findById (sampleCreateEnv 1).properties (sampleRequest 1 4).propertyId
        = some prop ∧
      sampleThreeNights.bookings = [] ++ [b] ∧
      Booking.findById sampleThreeNights.bookings 1 = some b ∧
      b.checkIn < b.checkOut ∧ (sampleCreateEnv 1).today ≤ b.checkIn ∧
      1 ≤ b.guests ∧ b.guests ≤ prop.maxGuests ∧
      b.status = Status.pending ∧ b.paymentStatus = PaymentStatus.pending :=
  ⟨by decide, createBooking_postcondition (sampleCreateEnv 1) [] 7 (sampleRequest 1 4) (by decide)⟩

/-! ## Validation order of `createBooking` -/

theorem maxGuests_message_ne (n : Int) (s : String) (hs : s.data.head? ≠ some 'M') :
    "Maximum guests allowed: " ++ toString n ≠ s := by
  intro h
  apply hs
  rw [← h, String.data_append]
  rfl

/-- C14, as the code has it: a request that passes both date checks and violates
`guests <= maxGuests` on a property that is not active is answered with the 404 of the
property lookup, not with the guest-count failure. -/
theorem createBooking_inactive_before_guests :
    sampleRequestInactive.checkIn < sampleRequestInactive.checkOut ∧
    (sampleCreateEnvTwo 1).today ≤ sampleRequestInactive.checkIn ∧
    Property.findById (sampleCreateEnvTwo 1).properties sampleRequestInactive.propertyId
      = some sampleInactiveProperty ∧
    sampleRequestInactive.guests > sampleInactiveProperty.maxGuests ∧
    (createBooking (sampleCreateEnvTwo 1) [] 7 sampleRequestInactive).res =
      ⟨404, false, "Property not found or not available"⟩ ∧
    (createBooking (sampleCreateEnvTwo 1) [] 7 sampleRequestInactive).res ≠
      ⟨400, false, "Maximum guests allowed: 4"⟩ := by
  decide

/-- C14, amended: `createBooking` validates fail-fast in the order `checkOut > checkIn`,
`checkIn >= today`, property found and active, `guests <= maxGuests`, availability; the
failure returned is that of the first of these five checks the request violates, the five
failure messages are pairwise distinct, and the collection is left as it was whenever a
check fails. -/
theorem createBooking_validation_order (env : CreateEnv) (store : List Booking) (userId : Nat)
    (req : CreateRequest) :
    (req.checkOut ≤ req.checkIn →
      createBooking env store userId req =
        ⟨⟨400, false, "Check-out date must be after check-in date"⟩, store, []⟩) ∧
    (req.checkIn < req.checkOut → req.checkIn < env.today →
      createBooking env store userId req =
        ⟨⟨400, false, "Check-in date cannot be in the past"⟩, store, []⟩) ∧
    (req.checkIn < req.checkOut → env.today ≤ req.checkIn →
      (∀ p, Property.findById env.properties req.propertyId = some p → p.isActive = false) →
      createBooking env store userId req =
        ⟨⟨404, false, "Property not found or not available"⟩, store, []⟩) ∧
    (∀ prop, req.checkIn < req.checkOut → env.today ≤ req.checkIn →
      Property.findById env.properties req.propertyId = some prop → prop.isActive = true →
      prop.maxGuests < req.guests →
      createBooking env store userId req =
        ⟨⟨400, false, "Maximum guests allowed: " ++ toString prop.maxGuests⟩, store, []⟩) ∧
    (∀ prop, req.checkIn < req.checkOut → env.today ≤ req.checkIn →
      Property.findById env.properties req.propertyId = some prop → prop.isActive = true →
      req.guests ≤ prop.maxGuests →
      Booking.checkAvailability store req.propertyId req.checkIn req.checkOut none = false →
      createBooking env store userId req =
        ⟨⟨400, false, "Property not available for selected dates"⟩, store, []⟩) ∧
    (∀ n : Int, List.Nodup
      ["Check-out date must be after check-in date", "Check-in date cannot be in the past",
       "Property not found or not available", "Maximum guests allowed: " ++ toString n,
       "Property not available for selected dates"]) := by
  refine ⟨?_, ?_, ?_, ?_, ?_, ?_⟩
  · intro h1
    simp [createBooking, h1]
  · intro h1 h2
    simp [createBooking, not_le.2 h1, h2]
  · intro h1 h2 hp
    unfold createBooking
    rw [if_neg (not_le.2 h1), if_neg (not_lt.2 h2)]
    cases hf : Property.findById env.properties req.propertyId with
    | none => rfl
    | some p => simp [hp p hf]
  · intro prop h1 h2 hf ha hg
    unfold createBooking
    rw [if_neg (not_le.2 h1), if_neg (not_lt.2 h2)]
    simp [hf, ha, hg]
  · intro prop h1 h2 hf ha hg hav
    unfold createBooking
    rw [if_neg (not_le.2 h1), if_neg (not_lt.2 h2)]
    simp [hf, ha, not_lt.2 hg, hav]
  · intro n
    have e1 := maxGuests_message_ne n "Check-out date must be after check-in date" (by decide)
    have e2 := maxGuests_message_ne n "Check-in date cannot be in the past" (by decide)
    have e3 := maxGuests_message_ne n "Property not found or not available" (by decide)
    have e4 := maxGuests_message_ne n "Property not available for selected dates" (by decide)
    simp only [List.nodup_cons, List.mem_cons, List.mem_singleton, List.not_mem_nil,
      List.nodup_nil, not_or, or_false, and_true, not_false_eq_true]
    exact ⟨⟨by decide, by decide, Ne.symm e1, by decide⟩, ⟨by decide, Ne.symm e2, by decide⟩,
      ⟨Ne.symm e3, by decide⟩, e4⟩

theorem createBooking_validation_order_witness :
    createBooking (sampleCreateEnv 2) [sampleConfirmed] 8 (sampleRequest 5 3) =
      ⟨⟨400, false, "Check-out date must be after check-in date"⟩, [sampleConfirmed], []⟩ ∧
    createBooking (sampleCreateEnv 2) [sampleConfirmed] 8
        { propertyId := 10, checkIn := 0, checkOut := 1, checkInMoment := 0, checkOutMoment := 1,
          guests := 9 } =
      ⟨⟨400, false, "Check-in date cannot be in the past"⟩, [sampleConfirmed], []⟩ ∧
    createBooking (sampleCreateEnvTwo 2) [sampleConfirmed] 8 sampleRequestInactive =
      ⟨⟨404, false, "Property not found or not available"⟩, [sampleConfirmed], []⟩ ∧
    createBooking (sampleCreateEnv 2) [sampleConfirmed] 8
        { propertyId := 10, checkIn := june2025 1, checkOut := june2025 5,
          checkInMoment := june2025 1, checkOutMoment := june2025 5, guests := 9 } =
      ⟨⟨400, false, "Maximum guests allowed: " ++ toString sampleProperty.maxGuests⟩,
        [sampleConfirmed], []⟩ ∧
    createBooking (sampleCreateEnv 2) [sampleConfirmed] 8 (sampleRequest 1 5) =
      ⟨⟨400, false, "Property not available for selected dates"⟩, [sampleConfirmed], []⟩ :=
  ⟨(createBooking_validation_order (sampleCreateEnv 2) [sampleConfirmed] 8
      (sampleRequest 5 3)).1 (by decide),
   (createBooking_validation_order (sampleCreateEnv 2) [sampleConfirmed] 8
      { propertyId := 10, checkIn := 0, checkOut := 1, checkInMoment := 0, checkOutMoment := 1,
          guests := 9 }).2.1 (by decide) (by decide),
   (createBooking_validation_order (sampleCreateEnvTwo 2) [sampleConfirmed] 8
      sampleRequestInactive).2.2.1 (by decide) (by decide) (by decide),
   (createBooking_validation_order (sampleCreateEnv 2) [sampleConfirmed] 8
      { propertyId := 10, checkIn := june2025 1, checkOut := june2025 5,
          checkInMoment := june2025 1, checkOutMoment := june2025 5, guests := 9 }).2.2.2.1
      sampleProperty (by decide) (by decide) (by decide) (by decide) (by decide),
   (createBooking_validation_order (sampleCreateEnv 2) [sampleConfirmed] 8
      (sampleRequest 1 5)).2.2.2.2.1
      sampleProperty (by decide) (by decide) (by decide) (by decide) (by decide) (by decide)⟩

/-! ## Ownership and lookup failures -/

/-- C16: `confirmBooking` answers 404 when no booking has the id and 403 when the booking
belongs to another user, and in both cases leaves the collection unchanged and makes no call
to a collaborator, so the Guesty mock keeps its content; `cancelBooking` and
`getBookingById` answer 404 and 403 under the same conditions and change nothing either. -/
theorem lookup_failures (envc : ConfirmEnv) (now : Int) (store : List Booking)
    (actor id : Nat) (mock : List GuestyBooking) :
    (Booking.findById store id = none →
      confirmBooking envc store actor id = ⟨⟨404, false, "Booking not found"⟩, store, []⟩ ∧
      cancelBooking now store actor id = ⟨⟨404, false, "Booking not found"⟩, store, []⟩ ∧
      getBookingById store actor id = ⟨⟨404, false, "Booking not found"⟩, store, []⟩ ∧
      gatewayAfter mock (confirmBooking envc store actor id).calls = mock ∧
      gatewayAfter mock (cancelBooking now store actor id).calls = mock ∧
      gatewayAfter mock (getBookingById store actor id).calls = mock) ∧
    (∀ b, Booking.findById store id = some b → b.user ≠ actor →
      confirmBooking envc store actor id =
        ⟨⟨403, false, "Access denied. You can only confirm your own bookings."⟩, store, []⟩ ∧
      cancelBooking now store actor id =
        ⟨⟨403, false, "Access denied. You can only cancel your own bookings."⟩, store, []⟩ ∧
      getBookingById store actor id =
        ⟨⟨403, false, "Access denied. You can only view your own bookings."⟩, store, []⟩ ∧
      gatewayAfter mock (confirmBooking envc store actor id).calls = mock ∧
      gatewayAfter mock (cancelBooking now store actor id).calls = mock ∧
      gatewayAfter mock (getBookingById store actor id).calls = mock) := by
  constructor
  · intro hnone
    have h1 : confirmBooking envc store actor id =
        ⟨⟨404, false, "Booking not found"⟩, store, []⟩ := by
      simp [confirmBooking, hnone]
    have h2 : cancelBooking now store actor id =
        ⟨⟨404, false, "Booking not found"⟩, store, []⟩ := by
      simp [cancelBooking, hnone]
    have h3 : getBookingById store actor id =
        ⟨⟨404, false, "Booking not found"⟩, store, []⟩ := by
      simp [getBookingById, hnone]
    rw [h1, h2, h3]
    exact ⟨rfl, rfl, rfl, rfl, rfl, rfl⟩
  · intro b hb hne
    have h1 : confirmBooking envc store actor id =
        ⟨⟨403, false, "Access denied. You can only confirm your own bookings."⟩, store, []⟩ := by
      simp [confirmBooking, hb, hne]
    have h2 : cancelBooking now store actor id =
        ⟨⟨403, false, "Access denied. You can only cancel your own bookings."⟩, store, []⟩ := by
      simp [cancelBooking, hb, hne]
    have h3 : getBookingById store actor id =
        ⟨⟨403, false, "Access denied. You can only view your own bookings."⟩, store, []⟩ := by
      simp [getBookingById, hb, hne]
    rw [h1, h2, h3]
    exact ⟨rfl, rfl, rfl, rfl, rfl, rfl⟩

theorem lookup_failures_witness :
    (confirmBooking sampleStrictEnvSucceeded [samplePending] 8 5).res.status = 404 ∧
    (confirmBooking sampleStrictEnvSucceeded [samplePending] 7 2).res.status = 403 ∧
    (confirmBooking sampleStrictEnvSucceeded [samplePending] 7 2).bookings = [samplePending] ∧
    gatewayAfter [] (confirmBooking sampleStrictEnvSucceeded [samplePending] 7 2).calls = [] :=
  have h404 := (lookup_failures sampleStrictEnvSucceeded 0 [samplePending] 8 5 []).1 (by decide)
  have h403 := (lookup_failures sampleStrictEnvSucceeded 0 [samplePending] 7 2 []).2
    samplePending (by decide) (by decide)
  ⟨by rw [h404.1], by rw [h403.1], by rw [h403.1], h403.2.2.2.1⟩

/-! ## Isolation of collaborator failures -/

theorem confirmStrict_isolated (env : ConfirmEnv) (g n : Bool) (s : List Booking) (id : Nat)
    (b : Booking) (c1 c2 : List Call) :
    (confirmStrict { env with guestySuccess := g, notificationFails := n } s id b c1).res =
      (confirmStrict env s id b c2).res ∧
    (confirmStrict { env with guestySuccess := g, notificationFails := n } s id b c1).bookings =
      (confirmStrict env s id b c2).bookings := by
  unfold confirmStrict
  cases env.retrieveStrict with
  | failure e => exact ⟨rfl, rfl⟩
  | success st =>
    simp only
    split_ifs <;> exact ⟨rfl, rfl⟩

theorem confirmBooking_res_bookings_indep (env : ConfirmEnv) (g n : Bool) (store : List Booking)
    (actor id : Nat) :
    (confirmBooking { env with guestySuccess := g, notificationFails := n } store actor id).res =
      (confirmBooking env store actor id).res ∧
    (confirmBooking { env with guestySuccess := g, notificationFails := n } store actor id).bookings =
      (confirmBooking env store actor id).bookings := by
  unfold confirmBooking
  cases Booking.findById store id with
  | none => exact ⟨rfl, rfl⟩
  | some b =>
    simp only
    by_cases h1 : b.user ≠ actor
    · simp only [if_pos h1, and_self]
    simp only [if_neg h1]
    by_cases h2 : b.status = Status.confirmed
    · simp only [if_pos h2, and_self]
    simp only [if_neg h2]
    by_cases h3 : b.paymentStatus = PaymentStatus.paid
    · simp only [if_pos h3]
      split_ifs <;> exact ⟨rfl, rfl⟩
    simp only [if_neg h3]
    by_cases h5 : env.development = true
    · simp only [h5, if_true]
      cases env.retrieveDev with
      | failure e => exact confirmStrict_isolated env g n store id b _ _
      | success st =>
        simp only
        by_cases h6 : allowedStatuses.contains st = true
        · simp only [h6, if_true]
          split_ifs <;> exact ⟨rfl, rfl⟩
        · simp only [h6]
          exact confirmStrict_isolated env g n store id b _ _
    · simp only [h5]
      exact confirmStrict_isolated env g n store id b _ _

/-- C17: the response of `confirmBooking` and the collection it leaves, hence the booking's
final `status` and `paymentStatus`, are the same whether `guestyService.createBooking` reports
success or failure and whether the notification service succeeds or throws; a call that
confirms the booking leaves it confirmed and paid and answers with success whatever those
collaborators do. -/
theorem confirmBooking_isolated (env : ConfirmEnv) (g n : Bool) (store : List Booking)
    (actor id : Nat) :
    (confirmBooking { env with guestySuccess := g, notificationFails := n } store actor id).res =
      (confirmBooking env store actor id).res ∧
    (confirmBooking { env with guestySuccess := g, notificationFails := n } store actor id).bookings =
      (confirmBooking env store actor id).bookings ∧
    ((confirmBooking env store actor id).res.success = true →
      (confirmBooking { env with guestySuccess := g, notificationFails := n }
        store actor id).res.success = true ∧
      ∃ b, Booking.findById (confirmBooking { env with guestySuccess := g, notificationFails := n }
          store actor id).bookings id = some b ∧
        b.status = Status.confirmed ∧ b.paymentStatus = PaymentStatus.paid) := by
  obtain ⟨hres, hbk⟩ := confirmBooking_res_bookings_indep env g n store actor id
  refine ⟨hres, hbk, fun hs => ?_⟩
  rw [hres, hbk]
  refine ⟨hs, ?_⟩
  rcases confirmBooking_cases env store actor id with hc | ⟨b, hb, -, -, -, -, hc⟩
  · rw [hc.1] at hs
    cases hs
  · have hid : b._id = id := (findById_eq_some hb).2
    refine ⟨b.markConfirmed, ?_, rfl, rfl⟩
    rw [hc, findById_updateById _ _ _ Booking.markConfirmed (fun _ => rfl), hb]
    simp [hid]

theorem confirmBooking_isolated_witness :
    (confirmBooking sampleStrictEnvSucceeded [samplePending] 8 2).res.success = true ∧
    (confirmBooking sampleEnvCollaboratorsDown [samplePending] 8 2).res.success = true ∧
    ∃ b, Booking.findById (confirmBooking sampleEnvCollaboratorsDown [samplePending] 8 2).bookings 2
        = some b ∧
      b.status = Status.confirmed ∧ b.paymentStatus = PaymentStatus.paid :=
  ⟨by decide,
    (confirmBooking_isolated sampleStrictEnvSucceeded false true [samplePending] 8 2).2.2
      (by decide)⟩

/-! ## Mirroring to the external gateway -/

/-- C18, at the failing input: for a pending booking whose payment Stripe reports as not yet
made, `confirmBooking` answers with a failure and leaves the booking pending, yet it has
called `guestyService.createBooking`, so the Guesty mock now holds the booking with status
`confirmed`. -/
theorem confirmBooking_mirrors_before_payment_check :
    (confirmBooking sampleStrictEnvUnpaid [samplePending] 8 2).res =
      ⟨400, false, "Payment not completed. Current status: requires_payment_method"⟩ ∧
    (confirmBooking sampleStrictEnvUnpaid [samplePending] 8 2).bookings = [samplePending] ∧
    samplePending.status = Status.pending ∧
    Call.guestyCreateBooking 2 ∈ (confirmBooking sampleStrictEnvUnpaid [samplePending] 8 2).calls ∧
    gatewayAfter [] (confirmBooking sampleStrictEnvUnpaid [samplePending] 8 2).calls =
      [{ externalBookingId := 2, status := "confirmed" }] := by
  decide

/-! ## Concurrent creations -/

/-- Running the two parts of `createBooking` one after the other on the same collection is
`createBooking`. -/
theorem createBooking_eq_validate_persist (env : CreateEnv) (store : List Booking) (userId : Nat)
    (req : CreateRequest) :
    createBooking env store userId req =
      match createBookingValidate env store userId req with
      | Except.error res => ⟨res, store, []⟩
      | Except.ok booking => createBookingPersist env store booking := by
  unfold createBooking createBookingValidate
  by_cases h1 : req.checkIn ≥ req.checkOut
  · simp only [if_pos h1]
  simp only [if_neg h1]
  by_cases h2 : req.checkIn < env.today
  · simp only [if_pos h2]
  simp only [if_neg h2]
  cases Property.findById env.properties req.propertyId with
  | none => rfl
  | some prop =>
    simp only
    by_cases h3 : prop.isActive = false
    · simp only [if_pos h3]
    simp only [if_neg h3]
    by_cases h4 : req.guests > prop.maxGuests
    · simp only [if_pos h4]
    simp only [if_neg h4]
    by_cases h5 : Booking.checkAvailability store req.propertyId req.checkIn req.checkOut none = false
    · simp only [if_pos h5]
    simp only [if_neg h5]
    rfl

/-- C20, at the failing input: two requests for overlapping stays of the same property, each
of which passes its availability check before the other has saved, are both answered 201 and
both persisted, so the collection holds two pending bookings that overlap; run one after the
other, the second is refused. -/
theorem interleaved_double_booking :
    (∃ outA outB, interleavedCreate (sampleCreateEnv 1) (sampleCreateEnv 2) [] 7 8
        (sampleRequest 4 10) (sampleRequest 1 5) = some (outA, outB) ∧
      outA.res = ⟨201, true, "Booking created successfully"⟩ ∧
      outB.res = ⟨201, true, "Booking created successfully"⟩ ∧
      outB.bookings.length = 2 ∧
      ∃ b1 ∈ outB.bookings, ∃ b2 ∈ outB.bookings, b1 ≠ b2 ∧ b1.property = b2.property ∧
        b1.status = Status.pending ∧ b2.status = Status.pending ∧
        b1.checkIn < b2.checkOut ∧ b1.checkOut > b2.checkIn) ∧
    (createBooking (sampleCreateEnv 2)
        (createBooking (sampleCreateEnv 1) [] 7 (sampleRequest 4 10)).bookings 8
        (sampleRequest 1 5)).res = ⟨400, false, "Property not available for selected dates"⟩ := by
  refine ⟨⟨_, _, rfl, ?_⟩, ?_⟩ <;> decide

/-! ## Development and strict confirmation policy -/

theorem confirmStrict_success_iff (env : ConfirmEnv) (s : List Booking) (id : Nat) (b : Booking)
    (calls : List Call) :
    (confirmStrict env s id b calls).res.success = true ↔
      env.retrieveStrict = RetrieveResult.success "succeeded" ∧
        Booking.checkAvailability s b.property b.checkIn b.checkOut (some id) = true := by
  unfold confirmStrict
  cases env.retrieveStrict with
  | failure e => simp
  | success st =>
    simp only
    by_cases h1 : st ≠ "succeeded"
    · simp [h1]
    simp only [if_neg h1]
    simp only [ne_eq, not_not] at h1
    by_cases h2 : Booking.checkAvailability s b.property b.checkIn b.checkOut (some id) = false
    · simp [h2]
    · simp only [if_neg h2]
      simp only [Bool.not_eq_false] at h2
      simp [h1, h2]

/-- When `confirmBooking` answers with success: the caller owns the booking, it is not yet
confirmed, the interval is still free, and payment is taken as made on one of three grounds. -/
theorem confirmBooking_success_iff (env : ConfirmEnv) (s : List Booking) (actor id : Nat) :
    (confirmBooking env s actor id).res.success = true ↔
      ∃ b, Booking.findById s id = some b ∧ b.user = actor ∧ b.status ≠ Status.confirmed ∧
        Booking.checkAvailability s b.property b.checkIn b.checkOut (some id) = true ∧
        (b.paymentStatus = PaymentStatus.paid ∨
          (env.development = true ∧
            ∃ st, env.retrieveDev = RetrieveResult.success st ∧ allowedStatuses.contains st = true) ∨
          env.retrieveStrict = RetrieveResult.success "succeeded") := by
  cases hb : Booking.findById s id with
  | none => simp [confirmBooking, hb]
  | some b =>
    simp only [confirmBooking, hb, Option.some.injEq, exists_eq_left']
    by_cases h1 : b.user ≠ actor
    · simp [h1]
    simp only [if_neg h1]
    simp only [ne_eq, not_not] at h1
    by_cases h2 : b.status = Status.confirmed
    · simp [h2]
    simp only [if_neg h2]
    by_cases hav : Booking.checkAvailability s b.property b.checkIn b.checkOut (some id) = false
    · have hstrict : ∀ calls, ¬ (confirmStrict env s id b calls).res.success = true := by
        intro calls h
        rw [confirmStrict_success_iff, hav] at h
        cases h.2
      by_cases h3 : b.paymentStatus = PaymentStatus.paid
      · simp [h3, hav]
      simp only [if_neg h3]
      by_cases h5 : env.development = true
      · simp only [h5, if_true]
        cases env.retrieveDev with
        | failure e => simp [hstrict, hav]
        | success st =>
          simp only
          by_cases h6 : st ∈ allowedStatuses
          · simp [h6, hav]
          · simp [h6, hstrict, hav]
      · simp [h5, hstrict, hav]
    · have hav2 : Booking.checkAvailability s b.property b.checkIn b.checkOut (some id) = true := by
        simpa using hav
      have hstrict : ∀ calls, ((confirmStrict env s id b calls).res.success = true ↔
          env.retrieveStrict = RetrieveResult.success "succeeded") := by
        intro calls
        rw [confirmStrict_success_iff, hav2]
        simp
      by_cases h3 : b.paymentStatus = PaymentStatus.paid
      · simp [h3, hav2, h1, h2]
      simp only [if_neg h3]
      by_cases h5 : env.development = true
      · simp only [h5, if_true]
        cases hr : env.retrieveDev with
        | failure e => simp [hstrict, hav2, h1, h2, h3]
        | success st =>
          simp only
          by_cases h6 : st ∈ allowedStatuses
          · simp [h6, hav2, h1, h2]
          · simp [h6, hstrict, hav2, h1, h2, h3]
      · simp [h5, hstrict, hav2, h1, h2, h3]

theorem confirmBooking_success_bookings (env : ConfirmEnv) (s : List Booking) (actor id : Nat)
    (h : (confirmBooking env s actor id).res.success = true) :
    (confirmBooking env s actor id).bookings = Booking.updateById s id Booking.markConfirmed ∧
    ∃ b, Booking.findById (confirmBooking env s actor id).bookings id = some b ∧
      b.status = Status.confirmed ∧ b.paymentStatus = PaymentStatus.paid := by
  rcases confirmBooking_cases env s actor id with hc | ⟨b, hb, -, -, -, -, hc⟩
  · rw [hc.1] at h
    cases h
  · have hid : b._id = id := (findById_eq_some hb).2
    refine ⟨hc, b.markConfirmed, ?_, rfl, rfl⟩
    rw [hc, findById_updateById _ _ _ Booking.markConfirmed (fun _ => rfl), hb]
    simp [hid]

/-- C19: whatever confirms a booking when `NODE_ENV` is not `development` confirms it, with
the same resulting collection (status confirmed, payment status paid), when `NODE_ENV` is
`development`; and when Stripe gives the same reply to both retrievals, a booking is confirmed
in development but not under the strict policy only for the retrieved statuses `processing`
and `requires_capture`, each of which does have that effect. -/
theorem development_policy_superset (env : ConfirmEnv) (store : List Booking) (actor id : Nat) :
    ((confirmBooking { env with development := false } store actor id).res.success = true →
      (confirmBooking { env with development := true } store actor id).res.success = true ∧
      (confirmBooking { env with development := true } store actor id).bookings =
        (confirmBooking { env with development := false } store actor id).bookings ∧
      ∃ b, Booking.findById
          (confirmBooking { env with development := true } store actor id).bookings id = some b ∧
        b.status = Status.confirmed ∧ b.paymentStatus = PaymentStatus.paid) ∧
    (env.retrieveDev = env.retrieveStrict →
      (confirmBooking { env with development := true } store actor id).res.success = true →
      (confirmBooking { env with development := false } store actor id).res.success = false →
      env.retrieveDev = RetrieveResult.success "processing" ∨
        env.retrieveDev = RetrieveResult.success "requires_capture") ∧
    (∀ b st, Booking.findById store id = some b → b.user = actor →
      b.status ≠ Status.confirmed → b.paymentStatus ≠ PaymentStatus.paid →
      Booking.checkAvailability store b.property b.checkIn b.checkOut (some id) = true →
      st = "processing" ∨ st = "requires_capture" →
      env.retrieveDev = RetrieveResult.success st →
      env.retrieveStrict = RetrieveResult.success st →
      (confirmBooking { env with development := true } store actor id).res.success = true ∧
      (confirmBooking { env with development := false } store actor id).res.success = false) := by
  refine ⟨fun hs => ?_, fun heq hd hns => ?_, fun b st hb hu hnc hnp hav hst hrd hrs => ?_⟩
  · have hdev : (confirmBooking { env with development := true } store actor id).res.success
        = true := by
      rw [confirmBooking_success_iff] at hs ⊢
      obtain ⟨b, hb, hu, hnc, hav, hpay⟩ := hs
      refine ⟨b, hb, hu, hnc, hav, ?_⟩
      rcases hpay with hp | ⟨hf, -⟩ | hp
      · exact Or.inl hp
      · cases hf
      · exact Or.inr (Or.inr hp)
    obtain ⟨hbd, hfd⟩ := confirmBooking_success_bookings _ store actor id hdev
    obtain ⟨hbs, -⟩ := confirmBooking_success_bookings _ store actor id hs
    exact ⟨hdev, by rw [hbd, hbs], hfd⟩
  · rw [confirmBooking_success_iff] at hd
    obtain ⟨b, hb, hu, hnc, hav, hpay⟩ := hd
    have hno : ¬ (confirmBooking { env with development := false } store actor id).res.success
        = true := by
      rw [hns]
      simp
    rw [confirmBooking_success_iff] at hno
    have hnp : ¬ b.paymentStatus = PaymentStatus.paid :=
      fun h => hno ⟨b, hb, hu, hnc, hav, Or.inl h⟩
    have hnsucc : ¬ env.retrieveStrict = RetrieveResult.success "succeeded" :=
      fun h => hno ⟨b, hb, hu, hnc, hav, Or.inr (Or.inr h)⟩
    rcases hpay with hp | ⟨-, st, hst, hal⟩ | hp
    · exact absurd hp hnp
    · have hst2 : env.retrieveDev = RetrieveResult.success st := hst
      have hmem : st = "succeeded" ∨ st = "processing" ∨ st = "requires_capture" := by
        simpa [allowedStatuses] using hal
      rcases hmem with h | h | h
      · exact absurd (by rw [← heq, hst2, h]) hnsucc
      · exact Or.inl (by rw [hst2, h])
      · exact Or.inr (by rw [hst2, h])
    · exact absurd hp hnsucc
  · constructor
    · rw [confirmBooking_success_iff]
      refine ⟨b, hb, hu, hnc, hav, Or.inr (Or.inl ⟨rfl, st, hrd, ?_⟩)⟩
      rcases hst with h | h <;> rw [h] <;> decide
    · rw [← Bool.not_eq_true, confirmBooking_success_iff]
      rintro ⟨b', hb', -, -, -, hpay⟩
      rw [hb] at hb'
      cases hb'
      rcases hpay with hp | ⟨hf, -⟩ | hp
      · exact hnp hp
      · cases hf
      · have hp2 : env.retrieveStrict = RetrieveResult.success "succeeded" := hp
        rw [hrs] at hp2
        injection hp2 with h
        rcases hst with h' | h' <;> rw [h'] at h <;> exact absurd h (by decide)

theorem development_policy_superset_witness :
    (confirmBooking { sampleStrictEnvSucceeded with development := true }
      [samplePending] 8 2).res.success = true ∧
    (confirmBooking { sampleProcessingEnv with development := true }
      [samplePending] 8 2).res.success = true ∧
    (confirmBooking { sampleProcessingEnv with development := false }
      [samplePending] 8 2).res.success = false :=
  ⟨((development_policy_superset sampleStrictEnvSucceeded [samplePending] 8 2).1
      (by decide)).1,
    (development_policy_superset sampleProcessingEnv [samplePending] 8 2).2.2
      samplePending "processing" (by decide) (by decide) (by decide) (by decide) (by decide)
      (Or.inl rfl) rfl rfl⟩

/-! ## Ownership on `PATCH /:id` -/

/-- C21, at the failing input: user 8, who does not own booking 1 of user 7, sends
`PATCH /1` with `paymentStatus: 'paid'` and a payment reference of their own; the request is
answered 200 and both fields of the booking are overwritten, whereas `confirmBooking` and
`cancelBooking` by user 8 are answered 403 and leave the booking as it was. -/
theorem patch_ignores_ownership :
    Booking.findById [sampleConfirmed, samplePending] 1 = some sampleConfirmed ∧
    sampleConfirmed.user = 7 ∧
    (patchRoute 8 [sampleConfirmed, samplePending] 1
      { paymentStatus := some "refunded", stripePaymentIntentId := some "pi_other" }).res =
      ⟨200, true, "Booking updated successfully"⟩ ∧
    Booking.findById (patchRoute 8 [sampleConfirmed, samplePending] 1
      { paymentStatus := some "refunded", stripePaymentIntentId := some "pi_other" }).bookings 1 =
      some { sampleConfirmed with paymentStatus := PaymentStatus.refunded,
                                  stripePaymentIntentId := some "pi_other" } ∧
    confirmBooking sampleStrictEnvSucceeded [sampleConfirmed, samplePending] 8 1 =
      ⟨⟨403, false, "Access denied. You can only confirm your own bookings."⟩,
        [sampleConfirmed, samplePending], []⟩ ∧
    cancelBooking 0 [sampleConfirmed, samplePending] 8 1 =
      ⟨⟨403, false, "Access denied. You can only cancel your own bookings."⟩,
        [sampleConfirmed, samplePending], []⟩ := by
  decide

/-! ## The `nights` virtual against the priced nights -/

/-- The virtual agrees with the truncated day difference whenever the part of the stay beyond
whole days is shorter than twelve hours, in particular for midnight-aligned stays. -/
theorem nights_eq_truncated_of_small_remainder (b : Booking) (h : b.checkIn < b.checkOut)
    (hrem : (b.checkOut - b.checkIn) % 86400000 < 43200000) :
    b.nights = Int.tdiv (b.checkOut - b.checkIn) 86400000 := by
  unfold Booking.nights msPerDay
  rw [Int.tdiv_eq_ediv (by omega) (by decide)]
  omega

/-- C22, at the failing input: a stay of 1.6 days at 100 per night is created with
`totalAmount` 100, one truncated night, while its `nights` virtual is 2, so `totalAmount`
differs from `pricePerNight` times `nights`. -/
theorem nights_virtual_disagrees_with_price :
    sampleRequestPartialDay.checkIn < sampleRequestPartialDay.checkOut ∧
    (createBooking (sampleCreateEnv 1) [] 7 sampleRequestPartialDay).res =
      ⟨201, true, "Booking created successfully"⟩ ∧
    (∀ b ∈ samplePartialDay,
      b.totalAmount = 100 ∧ b.nights = 2 ∧
      momentDiffDays (sampleCreateEnv 1).utcOffset b.checkOut b.checkIn = 1 ∧
      b.totalAmount ≠ jsTimes sampleProperty.pricePerNight b.nights) ∧
    samplePartialDay.length = 1 := by
  decide

/-! ## Notifications of a confirmation -/

theorem confirmStrict_success_calls (env : ConfirmEnv) (s : List Booking) (id : Nat) (b : Booking)
    (calls : List Call) (h : (confirmStrict env s id b calls).res.success = true) :
    (confirmStrict env s id b calls).calls =
      (calls ++ [Call.retrievePaymentIntent b.stripePaymentIntentId]) ++
        notifyConfirmed env.notificationFails b.markConfirmed := by
  unfold confirmStrict at h ⊢
  cases hr : env.retrieveStrict with
  | failure e =>
    rw [hr] at h
    cases h
  | success st =>
    rw [hr] at h
    simp only at h ⊢
    split_ifs at h ⊢ with h1 h2
    rfl

/-- The calls of a confirming `confirmBooking`: calls to Guesty and Stripe only, followed by
the notification block for the confirmed booking. -/
theorem confirmBooking_success_calls (env : ConfirmEnv) (s : List Booking) (actor id : Nat)
    (h : (confirmBooking env s actor id).res.success = true) :
    ∃ b pre, Booking.findById s id = some b ∧
      (confirmBooking env s actor id).calls =
        pre ++ notifyConfirmed env.notificationFails b.markConfirmed ∧
      ∀ c ∈ pre, c = Call.guestyCreateBooking b._id ∨
        c = Call.retrievePaymentIntent b.stripePaymentIntentId := by
  cases hb : Booking.findById s id with
  | none =>
    simp [confirmBooking, hb] at h
  | some b =>
    have hstrict : ∀ calls, (∀ c ∈ calls, c = Call.guestyCreateBooking b._id ∨
          c = Call.retrievePaymentIntent b.stripePaymentIntentId) →
        (confirmStrict env s id b calls).res.success = true →
        ∃ b' pre, some b = some b' ∧
          (confirmStrict env s id b calls).calls =
            pre ++ notifyConfirmed env.notificationFails b'.markConfirmed ∧
          ∀ c ∈ pre, c = Call.guestyCreateBooking b'._id ∨
            c = Call.retrievePaymentIntent b'.stripePaymentIntentId := by
      intro calls hcalls hs
      refine ⟨b, _, rfl, confirmStrict_success_calls env s id b calls hs, ?_⟩
      intro c hc
      simp only [List.mem_append, List.mem_singleton] at hc
      rcases hc with hc | hc
      · exact hcalls c hc
      · exact Or.inr hc
    simp only [confirmBooking, hb] at h ⊢
    by_cases h1 : b.user ≠ actor
    · simp [h1] at h
    simp only [if_neg h1] at h ⊢
    by_cases h2 : b.status = Status.confirmed
    · simp [h2] at h
    simp only [if_neg h2] at h ⊢
    by_cases h3 : b.paymentStatus = PaymentStatus.paid
    · simp only [if_pos h3] at h ⊢
      split_ifs at h ⊢ with h4
      exact ⟨b, [], rfl, rfl, fun c hc => by cases hc⟩
    simp only [if_neg h3] at h ⊢
    by_cases h5 : env.development = true
    · simp only [h5, if_true] at h ⊢
      cases hr : env.retrieveDev with
      | failure e =>
        rw [hr] at h
        exact hstrict _ (by simp) h
      | success st =>
        rw [hr] at h
        simp only at h ⊢
        by_cases h6 : allowedStatuses.contains st = true
        · simp only [h6, if_true] at h ⊢
          split_ifs at h ⊢ with h7
          exact ⟨b, _, rfl, rfl, by simp⟩
        · simp only [h6] at h ⊢
          exact hstrict _ (by simp) h
    · simp only [h5] at h ⊢
      exact hstrict _ (by simp) h

/-- Whenever `confirmBooking` confirms and the notification store works, one notification
record is saved and `sendEmailNotification` is called twice for the booking. -/
theorem confirmBooking_notification_counts (env : ConfirmEnv) (s : List Booking) (actor id : Nat)
    (h : (confirmBooking env s actor id).res.success = true)
    (hn : env.notificationFails = false) :
    callCount (Call.notificationSaved id) (confirmBooking env s actor id).calls = 1 ∧
    callCount (Call.sendEmailNotification id) (confirmBooking env s actor id).calls = 2 := by
  obtain ⟨b, pre, hb, hcalls, hpre⟩ := confirmBooking_success_calls env s actor id h
  have hid : b._id = id := (findById_eq_some hb).2
  have h1 : List.count (Call.notificationSaved id) pre = 0 := by
    rw [List.count_eq_zero]
    intro hc
    rcases hpre _ hc with h' | h' <;> cases h'
  have h2 : List.count (Call.sendEmailNotification id) pre = 0 := by
    rw [List.count_eq_zero]
    intro hc
    rcases hpre _ hc with h' | h' <;> cases h'
  have hnot : notifyConfirmed env.notificationFails b.markConfirmed =
      [Call.createBookingConfirmation id, Call.notificationSaved id,
        Call.sendEmailNotification id, Call.sendEmailNotification id] := by
    rw [hn, ← hid]
    rfl
  unfold callCount
  rw [hcalls, hnot, List.count_append, List.count_append, h1, h2]
  constructor <;> simp [List.count_cons]

/-- C23, at the failing input: confirming a pending booking under the strict policy, with
Stripe reporting `succeeded` and the notification store working, saves one notification
record and calls `sendEmailNotification` twice, once inside `createBookingConfirmation` and
once more from the controller. -/
theorem confirmBooking_sends_email_twice :
    (confirmBooking sampleStrictEnvSucceeded [samplePending] 8 2).res.success = true ∧
    sampleStrictEnvSucceeded.notificationFails = false ∧
    callCount (Call.notificationSaved 2)
      (confirmBooking sampleStrictEnvSucceeded [samplePending] 8 2).calls = 1 ∧
    callCount (Call.sendEmailNotification 2)
      (confirmBooking sampleStrictEnvSucceeded [samplePending] 8 2).calls = 2 ∧
    NotificationService.createBookingConfirmation false samplePending =
      (true, [Call.notificationSaved 2, Call.sendEmailNotification 2]) := by
  decide

end ByndHomes
